import Mathlib

/-!
# Verification of the multi-agent orchestration core

Shallow embedding of the orchestration state machine of
`src/multi_agent_system.py`: the session state (`GraphState`), the message
log and its conversation filter, the error-handling utilities, the
orchestrator (determine next step / check retry limit / execute next step),
the router, and the agent nodes.  The external LLM and tool calls are
modelled as an environment (`LLMEnv`) supplying the structured responses the
adapters validate and store; everything else is translated directly from the
Python source.  Python exceptions are modelled with `Except`, carrying the
partially mutated state at the raise site (Python mutates the state dict in
place, so mutations made before a raise survive into the handler).
-/

namespace MultiAgent

/-! ## Python-style list primitives -/

/-- Python `l[i]` read: negative indices count from the end; out of range is
`none` (an `IndexError` at the call site). -/
def pyGet {α : Type} (l : List α) (i : Int) : Option α :=
  let j : Int := if i < 0 then (l.length : Int) + i else i
  if 0 ≤ j then l.get? j.toNat else none

/-- Python `l[i] = v` write: negative indices count from the end; out of
range is `none` (an `IndexError` at the call site). -/
def pySet {α : Type} (l : List α) (i : Int) (v : α) : Option (List α) :=
  let j : Int := if i < 0 then (l.length : Int) + i else i
  if 0 ≤ j ∧ j.toNat < l.length then some (l.set j.toNat v) else none

/-- Python `needle in hay` on strings (substring containment). -/
def strContains (hay needle : String) : Bool :=
  let h := hay.toList
  let n := needle.toList
  (List.range (h.length + 1)).any fun i => n.isPrefixOf (List.drop i h)

/-- Python `s.lower()` (ASCII case folding suffices for the source's use). -/
def pyLower (s : String) : String := ⟨s.toList.map Char.toLower⟩

/-- Rendering of a Python list of strings inside an f-string
(`f"{['a', 'b']}"`). -/
def pyListRepr (l : List String) : String :=
  "[" ++ String.intercalate ", " (l.map fun x => "'" ++ x ++ "'") ++ "]"

/-! ## Data model (`AgentMessage`, sub-states, `GraphState`) -/

/-- `AgentMessage` TypedDict: sender, receiver, type, content, optional
step id linking the message to a research step. -/
structure AgentMessage where
  sender : String
  receiver : String
  type : String
  content : String
  step_id : Option Int
deriving DecidableEq, Repr

/-- A langchain chat message as the adapters build them:
`HumanMessage` for orchestrator-sent content, `AIMessage` otherwise. -/
inductive LCMessage where
  | human (content : String)
  | ai (content : String)
deriving DecidableEq, Repr

/-- `ResearcherState`: the per-research-step sub-conversation state. -/
structure ResearcherState where
  messages : List LCMessage
  step_index : Int
  result : Option String
deriving DecidableEq, Repr

/-- `ExpertState`: the single expert sub-conversation state. -/
structure ExpertState where
  messages : List LCMessage
  question : String
  research_steps : List String
  research_results : List String
  expert_answer : String
  expert_reasoning : String
deriving DecidableEq, Repr

/-- `GraphState`: the session state threaded through every node.
`current_step`/`next_step` are kept as strings, as in the Python source,
so that invalid values remain representable.  The single shared
`retry_count`/`retry_limit` pair is as in the source. -/
structure GraphState where
  agent_messages : List AgentMessage
  question : String
  files : Option (List String)
  research_steps : List String
  expert_steps : List String
  researcher_states : List (Int × ResearcherState)
  current_research_index : Int
  research_results : List String
  expert_state : Option ExpertState
  expert_answer : String
  expert_reasoning : String
  critic_planner_decision : String
  critic_planner_feedback : String
  critic_researcher_decision : String
  critic_researcher_feedback : String
  critic_expert_decision : String
  critic_expert_feedback : String
  final_answer : String
  final_reasoning_trace : String
  current_step : String
  next_step : String
  retry_count : Nat
  retry_limit : Nat
  error : Option String
  error_component : Option String
deriving DecidableEq, Repr

/-- Lookup in the `researcher_states` dict (`dict[int, ResearcherState]`). -/
def dictLookup (d : List (Int × ResearcherState)) (k : Int) : Option ResearcherState :=
  match d with
  | [] => none
  | (k', v) :: rest => if k' = k then some v else dictLookup rest k

/-- Update/insert in the `researcher_states` dict
(`state["researcher_states"][idx] = v`). -/
def dictInsert (d : List (Int × ResearcherState)) (k : Int) (v : ResearcherState) :
    List (Int × ResearcherState) :=
  match d with
  | [] => [(k, v)]
  | (k', v') :: rest =>
    if k' = k then (k, v) :: rest else (k', v') :: dictInsert rest k v

/-! ## Inter-agent communication -/

/-- `send_message`: append a message to the log. -/
def send_message (s : GraphState) (m : AgentMessage) : GraphState :=
  { s with agent_messages := s.agent_messages ++ [m] }

/-- `get_agent_conversation`: messages between the orchestrator and the
named agent, then optionally restricted to a `step_id`, then (if `types`
is truthy, i.e. a non-empty list) to the given message types. -/
def get_agent_conversation (s : GraphState) (agent_name : String)
    (types : Option (List String)) (step_id : Option Int) : List AgentMessage :=
  let inbox := s.agent_messages.filter fun m =>
    (m.sender == agent_name && m.receiver == "orchestrator")
      || (m.sender == "orchestrator" && m.receiver == agent_name)
  let inbox :=
    match step_id with
    | some sid => inbox.filter fun m => m.step_id == some sid
    | none => inbox
  match types with
  | some ts => if ts = [] then inbox else inbox.filter fun m => ts.contains m.type
  | none => inbox

/-- `convert_agent_messages_to_langchain`. -/
def convert_agent_messages_to_langchain (messages : List AgentMessage) : List LCMessage :=
  messages.map fun m =>
    if m.sender == "orchestrator" then .human m.content else .ai m.content

/-! ## Error handling utilities -/

/-- `set_error_state`: record the error string and the failing component. -/
def set_error_state (s : GraphState) (component : String) (e : String) : GraphState :=
  { s with error := some (component ++ " failed: " ++ e),
           error_component := some component }

/-- `handle_agent_error`: record the error; increment the retry counter
unless the message mentions "network" or "timeout" (case-insensitive);
route to the finalizer when the retry limit is reached. -/
def handle_agent_error (s0 : GraphState) (component : String) (e : String) : GraphState :=
  let s := set_error_state s0 component e
  let s :=
    if !(strContains (pyLower e) "network") && !(strContains (pyLower e) "timeout") then
      { s with retry_count := s.retry_count + 1 }
    else s
  if s.retry_limit ≤ s.retry_count then
    { s with next_step := "finalizer",
             final_answer :=
               "The question could not be answered due to an error in " ++ component ++ ".",
             final_reasoning_trace := "System encountered an error: " ++ e }
  else s

/-- The spec's `failed` flag.  The source's `GraphState` has no boolean
`failed` field; the spec describes `failed` as "set true only when a retry
limit is exceeded" and persistent, which in the code is exactly the
(persistent, since `retry_count` never decreases and `retry_limit` never
changes) condition `retry_count >= retry_limit`. -/
def failedFlag (s : GraphState) : Prop := s.retry_limit ≤ s.retry_count

/-! ## Orchestrator

The three helper steps of the controller.  `execute_next_step` can raise
(`ValueError` on an unknown step, `IndexError` from a list access), which
the `orchestrator` wrapper catches via `handle_agent_error`; the exception
value carries the state as mutated up to the raise site. -/

/-- Step 1, `determine_next_step`: pure transition on `current_step` and the
relevant critic decision. -/
def determine_next_step (s : GraphState) : GraphState :=
  if s.current_step = "critic_planner" then
    if s.critic_planner_decision = "approve" then
      if 0 < s.research_steps.length then
        { s with next_step := "researcher",
                 current_research_index := -1,
                 research_results := [],
                 researcher_states := [] }
      else
        { s with next_step := "expert" }
    else if s.critic_planner_decision = "reject" then
      { s with next_step := "planner", retry_count := s.retry_count + 1 }
    else s
  else if s.current_step = "critic_researcher" then
    if s.critic_researcher_decision = "approve" then
      if (s.research_steps.length : Int) - 1 ≤ s.current_research_index then
        { s with next_step := "expert" }
      else
        { s with next_step := "researcher" }
    else if s.critic_researcher_decision = "reject" then
      { s with next_step := "researcher", retry_count := s.retry_count + 1 }
    else s
  else if s.current_step = "critic_expert" then
    if s.critic_expert_decision = "approve" then
      { s with next_step := "finalizer" }
    else if s.critic_expert_decision = "reject" then
      { s with next_step := "expert", retry_count := s.retry_count + 1 }
    else s
  else if s.current_step = "" ∨ s.current_step = "input" then
    { s with next_step := "planner" }
  else if s.current_step = "planner" then
    { s with next_step := "critic_planner" }
  else if s.current_step = "researcher" then
    { s with next_step := "critic_researcher" }
  else if s.current_step = "expert" then
    { s with next_step := "critic_expert" }
  else s

/-- Step 2, `check_retry_limit`: on `retry_count >= retry_limit` override
the next step to the finalizer and pre-fill the failure answer. -/
def check_retry_limit (s : GraphState) : GraphState :=
  if s.retry_limit ≤ s.retry_count then
    { s with next_step := "finalizer",
             final_answer := "The question could not be answered.",
             final_reasoning_trace := "The question could not be answered." }
  else s

/-- Step 3, `execute_next_step`: advance `current_step` to `next_step` and
append the instruction message for the new step.  Raises (as `.error`) on an
invalid step, or on the `IndexError` reachable from the list reads. -/
def execute_next_step (s0 : GraphState) : Except (String × GraphState) GraphState :=
  let s := { s0 with current_step := s0.next_step }
  if s.current_step = "planner" then
    if s.critic_planner_decision = "reject" then
      .ok (send_message s
        { sender := "orchestrator", receiver := "planner", type := "instruction",
          content := s.critic_planner_feedback, step_id := none })
    else
      let files_info :=
        match s.files with
        | some fs =>
          if fs = [] then ""
          else "\nInclude using following files in the research steps: "
            ++ String.intercalate "\n" fs
        | none => ""
      .ok (send_message s
        { sender := "orchestrator", receiver := "planner", type := "instruction",
          content := "Develop a logical plan to answer the following question: "
            ++ s.question ++ files_info,
          step_id := none })
  else if s.current_step = "critic_planner" then
    let logical_plan := String.intercalate "\n" s.research_steps ++ "\n"
      ++ String.intercalate "\n" s.expert_steps
    .ok (send_message s
      { sender := "orchestrator", receiver := "critic_planner", type := "instruction",
        content := "Review the following plan to make sure it is a good plan to answer the question. The plan: "
          ++ logical_plan,
        step_id := none })
  else if s.current_step = "researcher" then
    if s.critic_researcher_decision = "reject" then
      .ok (send_message s
        { sender := "orchestrator", receiver := "researcher", type := "instruction",
          content := s.critic_researcher_feedback,
          step_id := some s.current_research_index })
    else
      let s := { s with current_research_index := s.current_research_index + 1 }
      if s.current_research_index < (s.research_steps.length : Int) then
        match pyGet s.research_steps s.current_research_index with
        | none => .error ("list index out of range", s)
        | some stepText =>
          .ok (send_message s
            { sender := "orchestrator", receiver := "researcher", type := "instruction",
              content := "Research the following topic or question: " ++ stepText,
              step_id := some s.current_research_index })
      else
        .ok (send_message s
          { sender := "orchestrator", receiver := "researcher", type := "instruction",
            content := "All research steps completed.",
            step_id := some (s.current_research_index - 1) })
  else if s.current_step = "critic_researcher" then
    if s.current_research_index < (s.research_results.length : Int) then
      match pyGet s.research_results s.current_research_index with
      | none => .error ("list index out of range", s)
      | some rr =>
        .ok (send_message s
          { sender := "orchestrator", receiver := "critic_researcher", type := "instruction",
            content := "Review the following research results to make sure it satisfies the request.\n## The research results: "
              ++ rr,
            step_id := some s.current_research_index })
    else
      .ok (send_message s
        { sender := "orchestrator", receiver := "critic_researcher", type := "instruction",
          content := "Review the following research results to make sure it satisfies the request.\n## The research results: ",
          step_id := some s.current_research_index })
  else if s.current_step = "expert" then
    if s.critic_expert_decision = "reject" then
      .ok (send_message s
        { sender := "orchestrator", receiver := "expert", type := "instruction",
          content := s.critic_expert_feedback, step_id := none })
    else
      .ok (send_message s
        { sender := "orchestrator", receiver := "expert", type := "instruction",
          content := "Perform the following step(s) to answer the question: "
            ++ String.intercalate " " s.expert_steps,
          step_id := none })
  else if s.current_step = "critic_expert" then
    .ok (send_message s
      { sender := "orchestrator", receiver := "critic_expert", type := "instruction",
        content := "Review the following expert's answer to make sure it answers the question.\n## The expert's answer: "
          ++ s.expert_answer,
        step_id := none })
  else if s.current_step = "finalizer" then
    .ok (send_message s
      { sender := "orchestrator", receiver := "finalizer", type := "instruction",
        content := "Generate the final answer and reasoning trace (logical steps) to answer the question.",
        step_id := none })
  else
    .error ("Invalid current step: " ++ s.current_step, s)

/-- The orchestrator's error branch (`if state.get("error"):`): route to the
finalizer, generating a failure answer if none is present yet. -/
def orchestrator_error_branch (s0 : GraphState) (e : String) : GraphState :=
  let s := { s0 with next_step := "finalizer" }
  let s :=
    if s.final_answer = "" then
      { s with final_answer := "The question could not be answered due to an error: " ++ e }
    else s
  if s.final_reasoning_trace = "" then
    { s with final_reasoning_trace :=
        "System encountered an error in "
          ++ (match s.error_component with | some c => c | none => "None")
          ++ ": " ++ e }
  else s

/-- The orchestrator's normal path: steps 1-3 under the `try`, with any
raise funnelled into `handle_agent_error` on the state mutated so far. -/
def orchestrator_normal (s : GraphState) : GraphState :=
  match execute_next_step (check_retry_limit (determine_next_step s)) with
  | .ok t => t
  | .error (e, sMut) => handle_agent_error sMut "orchestrator" e

/-- `orchestrator`: error-state check first (Python truthiness: an empty
error string is falsy), then the normal 4-step path. -/
def orchestrator (s : GraphState) : GraphState :=
  match s.error with
  | some e => if e = "" then orchestrator_normal s else orchestrator_error_branch s e
  | none => orchestrator_normal s

/-! ## Router -/

/-- `route_from_orchestrator`: map the current step to the agent node to
invoke; unrecognized steps raise `ValueError` (modelled as `.error`). -/
def route_from_orchestrator (s : GraphState) : Except String String :=
  if s.current_step = "planner" then .ok "planner"
  else if s.current_step = "researcher" then .ok "researcher"
  else if s.current_step = "expert" then .ok "expert"
  else if s.current_step = "critic_planner" then .ok "critic"
  else if s.current_step = "critic_researcher" then .ok "critic"
  else if s.current_step = "critic_expert" then .ok "critic"
  else if s.current_step = "finalizer" then .ok "finalizer"
  else .error ("Invalid current step: " ++ s.current_step)

/-! ## Agent nodes

Each node wraps an external reasoning-collaborator call.  The call itself is
out of scope (an LLM); an `LLMEnv` supplies the validated structured
response the node would extract from it.  Raise sites inside the nodes
(`[-1]` on an empty list, list index assignments) are modelled exactly, and
the node wrappers catch them via `handle_agent_error` as the source does. -/

/-- One invocation's worth of external responses: the planner's plan, the
critic's verdict, the researcher sub-graph's result, the expert sub-graph's
answer, and the finalizer's answer. -/
structure LLMEnv where
  plan_research : List String
  plan_expert : List String
  critic_decision : String
  critic_feedback : String
  research_result : String
  expert_answer : String
  expert_reasoning : String
  final_answer : String
  final_reasoning : String
deriving Repr

/-- `planner`: replace the plan with the validated response and report back
to the orchestrator. -/
def planner_node (env : LLMEnv) (s0 : GraphState) : GraphState :=
  let s := { s0 with research_steps := env.plan_research,
                     expert_steps := env.plan_expert }
  send_message s
    { sender := "planner", receiver := "orchestrator", type := "response",
      content := "Plan complete.\n## The research steps are:\n"
        ++ pyListRepr s.research_steps
        ++ "\n\n## And the expert steps are:\n" ++ pyListRepr s.expert_steps,
      step_id := none }

/-- Python `list[int, ...][-1]` specialised to the conversation reads of the
nodes. -/
def pyLast {α : Type} (l : List α) : Option α := pyGet l (-1)

/-- The `researcher_node` result-store step: append the result when
`len(research_results) <= idx`, otherwise assign in place at `idx`
(`none` models the `IndexError` of an out-of-range assignment). -/
def store_research_result (results : List String) (idx : Int) (r : String) :
    Option (List String) :=
  if (results.length : Int) ≤ idx then some (results ++ [r])
  else pySet results idx r

/-- `researcher_node` after the sub-conversation state for the current index
has been assembled: invoke the researcher sub-graph (external; it returns a
terminal state whose `result` field is the environment's answer), store the
slot and the result, and report back. -/
def researcher_finish (env : LLMEnv) (s0 : GraphState) (idx : Int)
    (rstate : ResearcherState) : Except (String × GraphState) GraphState :=
  let invoked : ResearcherState := { rstate with result := some env.research_result }
  let s := { s0 with researcher_states := dictInsert s0.researcher_states idx invoked }
  match store_research_result s.research_results idx env.research_result with
  | none => .error ("list assignment index out of range", s)
  | some newResults =>
    let s := { s with research_results := newResults }
    match pyGet s.research_results idx with
    | none => .error ("list index out of range", s)
    | some storedResult =>
      .ok (send_message s
        { sender := "researcher", receiver := "orchestrator", type := "response",
          content := "Research complete. The research results are:\n" ++ storedResult,
          step_id := some idx })

/-- Body of `researcher_node` (the code under its `try`). -/
def researcher_body (env : LLMEnv) (s : GraphState) :
    Except (String × GraphState) GraphState :=
  let idx := s.current_research_index
  let message_history := get_agent_conversation s "researcher" none (some idx)
  let message_in := convert_agent_messages_to_langchain message_history
  match dictLookup s.researcher_states idx with
  | none =>
    researcher_finish env s idx { messages := message_in, step_index := idx, result := none }
  | some rstate =>
    match pyLast message_in with
    | none => .error ("list index out of range", s)
    | some lastMsg =>
      researcher_finish env s idx { rstate with messages := rstate.messages ++ [lastMsg] }

/-- `researcher_node` with its error handler. -/
def researcher_node (env : LLMEnv) (s : GraphState) : GraphState :=
  match researcher_body env s with
  | .ok t => t
  | .error (e, sMut) => handle_agent_error sMut "researcher" e

/-- Body of `expert` (the code under its `try`). -/
def expert_body (env : LLMEnv) (s0 : GraphState) :
    Except (String × GraphState) GraphState :=
  let message_history := get_agent_conversation s0 "expert" none none
  match pyLast (convert_agent_messages_to_langchain message_history) with
  | none => .error ("list index out of range", s0)
  | some lastMsg =>
    let message_in := [lastMsg]
    let estate : ExpertState :=
      match s0.expert_state with
      | none =>
        { messages := message_in, question := s0.question,
          research_steps := s0.research_steps,
          research_results := s0.research_results,
          expert_answer := "", expert_reasoning := "" }
      | some es => { es with messages := es.messages ++ message_in }
    let invoked : ExpertState :=
      { estate with expert_answer := env.expert_answer,
                    expert_reasoning := env.expert_reasoning }
    let s := { s0 with expert_state := some invoked,
                       expert_answer := invoked.expert_answer,
                       expert_reasoning := invoked.expert_reasoning }
    .ok (send_message s
      { sender := "expert", receiver := "orchestrator", type := "response",
        content := "Expert complete. The expert answer is:\n" ++ invoked.expert_answer
          ++ "\n\n## The reasoning trace is:\n" ++ invoked.expert_reasoning,
        step_id := none })

/-- `expert` node with its error handler. -/
def expert_node (env : LLMEnv) (s : GraphState) : GraphState :=
  match expert_body env s with
  | .ok t => t
  | .error (e, sMut) => handle_agent_error sMut "expert" e

/-- Body of `handle_critic_planner_review` (the code under its `try`). -/
def critic_planner_body (env : LLMEnv) (s0 : GraphState) :
    Except (String × GraphState) GraphState :=
  match pyLast (get_agent_conversation s0 "critic_planner" none none) with
  | none => .error ("list index out of range", s0)
  | some _last =>
    let s := { s0 with critic_planner_decision := env.critic_decision,
                       critic_planner_feedback := env.critic_feedback }
    .ok (send_message s
      { sender := "critic_planner", receiver := "orchestrator", type := "response",
        content := "Critic of the planner's plan complete. The decision is:\n"
          ++ env.critic_decision ++ "\n\n## The feedback is:\n" ++ env.critic_feedback,
        step_id := none })

/-- Body of `handle_critic_researcher_review` (the code under its `try`);
the prompt formatting reads `research_steps[current_research_index]`, which
can raise. -/
def critic_researcher_body (env : LLMEnv) (s0 : GraphState) :
    Except (String × GraphState) GraphState :=
  match pyGet s0.research_steps s0.current_research_index with
  | none => .error ("list index out of range", s0)
  | some _request =>
    match pyLast (get_agent_conversation s0 "critic_researcher" none
        (some s0.current_research_index)) with
    | none => .error ("list index out of range", s0)
    | some _last =>
      let s := { s0 with critic_researcher_decision := env.critic_decision,
                         critic_researcher_feedback := env.critic_feedback }
      .ok (send_message s
        { sender := "critic_researcher", receiver := "orchestrator", type := "response",
          content := "Critic of the researcher's work complete. The decision is:\n"
            ++ env.critic_decision ++ "\n\n## The feedback is:\n" ++ env.critic_feedback,
          step_id := some s.current_research_index })

/-- Body of `handle_critic_expert_review` (the code under its `try`). -/
def critic_expert_body (env : LLMEnv) (s0 : GraphState) :
    Except (String × GraphState) GraphState :=
  match pyLast (get_agent_conversation s0 "critic_expert" none none) with
  | none => .error ("list index out of range", s0)
  | some _last =>
    let s := { s0 with critic_expert_decision := env.critic_decision,
                       critic_expert_feedback := env.critic_feedback }
    .ok (send_message s
      { sender := "critic_expert", receiver := "orchestrator", type := "response",
        content := "Critic of the expert's work complete. The decision is:\n"
          ++ env.critic_decision ++ "\n\n## The feedback is:\n" ++ env.critic_feedback,
        step_id := none })

/-- `critic`: dispatch on `current_step` to the three review handlers (each
with its own error handler); an invalid critic step raises a `ValueError`
caught by the outer handler with component name `critic`. -/
def critic (env : LLMEnv) (s : GraphState) : GraphState :=
  if s.current_step = "critic_planner" then
    match critic_planner_body env s with
    | .ok t => t
    | .error (e, sMut) => handle_agent_error sMut "critic_planner" e
  else if s.current_step = "critic_researcher" then
    match critic_researcher_body env s with
    | .ok t => t
    | .error (e, sMut) => handle_agent_error sMut "critic_researcher" e
  else if s.current_step = "critic_expert" then
    match critic_expert_body env s with
    | .ok t => t
    | .error (e, sMut) => handle_agent_error sMut "critic_expert" e
  else
    handle_agent_error s "critic" ("Invalid critic step: " ++ s.current_step)

/-- `finalizer`: produce `final_answer`/`final_reasoning_trace` from the
validated response and report back. -/
def finalizer_node (env : LLMEnv) (s0 : GraphState) : GraphState :=
  let s := { s0 with final_answer := env.final_answer,
                     final_reasoning_trace := env.final_reasoning }
  send_message s
    { sender := "finalizer", receiver := "orchestrator", type := "response",
      content := "Finalizer complete. The final answer is:\n" ++ env.final_answer
        ++ "\n\n## The final reasoning trace is:\n" ++ env.final_reasoning,
      step_id := none }

/-! ## Driver

The graph wiring: `input_interface → orchestrator`, a conditional edge from
the orchestrator through `route_from_orchestrator` to the chosen node, every
node back to the orchestrator, and `finalizer → END`.  One `bigStep` is one
controller invocation followed by the routed agent node; the run freezes as
soon as `current_step = "finalizer"` (at that point the pre-filled or
to-be-finalized answer is in the state and the graph performs only the final
`finalizer → END` edge). -/

/-- `input_interface`: the initial session state for a question (all fields
initialised as in the source, `retry_limit = 5`). -/
def input_interface (question : String) : GraphState :=
  { agent_messages := [], question := question, files := none,
    research_steps := [], expert_steps := [], researcher_states := [],
    current_research_index := -1, research_results := [],
    expert_state := none, expert_answer := "", expert_reasoning := "",
    critic_planner_decision := "", critic_planner_feedback := "",
    critic_researcher_decision := "", critic_researcher_feedback := "",
    critic_expert_decision := "", critic_expert_feedback := "",
    final_answer := "", final_reasoning_trace := "",
    current_step := "input", next_step := "planner",
    retry_count := 0, retry_limit := 5, error := none, error_component := none }

/-- Initial state with an explicit retry limit (the spec's termination
property quantifies over all initial retry limits; the source hardcodes 5 in
`input_interface`). -/
def mkInit (question : String) (limit : Nat) : GraphState :=
  { input_interface question with retry_limit := limit }

/-- Dispatch of the graph's conditional edge: run the node chosen by the
router.  On a router error the graph run aborts; the driver state is left
unchanged in that case. -/
def routed_node (env : LLMEnv) (s : GraphState) : GraphState :=
  match route_from_orchestrator s with
  | .ok "planner" => planner_node env s
  | .ok "researcher" => researcher_node env s
  | .ok "expert" => expert_node env s
  | .ok "critic" => critic env s
  | .ok "finalizer" => finalizer_node env s
  | _ => s

/-- One driver iteration: one orchestrator invocation followed by the routed
agent node.  When the orchestrator has just routed to the finalizer step the
routed node is the finalizer node itself, which runs once before the graph's
`finalizer -> END` edge ends the run; a run that has ended is modelled as
frozen (once `current_step = "finalizer"` the finalizer node has already run
and further iterations leave the state unchanged). -/
def bigStep (env : LLMEnv) (s : GraphState) : GraphState :=
  if s.current_step = "finalizer" then s
  else routed_node env (orchestrator s)

/-- Iterate `bigStep` for `k` controller invocations, feeding invocation `i`
the environment `envs i`. -/
def runAux (envs : Nat → LLMEnv) (s : GraphState) (i : Nat) : Nat → GraphState
  | 0 => s
  | k + 1 => runAux envs (bigStep (envs i) s) (i + 1) k

/-! ## Definitions used by the claim statements -/

/-- The step values the router recognises (the spec's "known step values";
`input` is not among them — the graph never routes it through the router). -/
def routerKnownSteps : List String :=
  ["planner", "researcher", "expert", "critic_planner", "critic_researcher",
   "critic_expert", "finalizer"]

/-- The conversation filter as the specification words it: exactly the
subsequence of the log whose direction matches the role, restricted to the
given `step_id` when one is given, and to messages whose kind is among
`types` when a kinds list is given.  Used to compare `get_agent_conversation`
against the spec sentence. -/
def conversation_spec (s : GraphState) (agent_name : String)
    (types : Option (List String)) (step_id : Option Int) : List AgentMessage :=
  s.agent_messages.filter fun m =>
    ((m.sender == agent_name && m.receiver == "orchestrator")
        || (m.sender == "orchestrator" && m.receiver == agent_name))
      && (match step_id with | some sid => m.step_id == some sid | none => true)
      && (match types with | some ts => ts.contains m.type | none => true)

/-- Processing research steps `0..n-1` in order with approvals only:
the result of step `i` is `res i` and each is stored by the researcher
node's store step. -/
def storeSeq (res : Nat → String) : Nat → Option (List String)
  | 0 => some []
  | n + 1 => (storeSeq res n).bind fun l => store_research_result l (n : Int) (res n)

/-- Environment whose critic always rejects (the spec's termination
scenario); the planner returns an empty research plan. -/
def rejectAllEnv : LLMEnv :=
  { plan_research := [], plan_expert := ["Answer the question"],
    critic_decision := "reject", critic_feedback := "Not good enough.",
    research_result := "result", expert_answer := "answer",
    expert_reasoning := "reasoning", final_answer := "fa", final_reasoning := "fr" }

/-- Environment for the spec's no-research scenario (question "What is
2 + 2?"): empty research plan, always-approving critic, expert answer 4. -/
def noResearchEnv : LLMEnv :=
  { plan_research := [], plan_expert := ["Calculate 2+2"],
    critic_decision := "approve", critic_feedback := "Good.",
    research_result := "result", expert_answer := "4",
    expert_reasoning := "2+2=4", final_answer := "4", final_reasoning := "Calculated." }

/-- Environment with a one-step research plan and an always-approving
critic. -/
def oneStepEnv : LLMEnv :=
  { plan_research := ["Find X"], plan_expert := ["Use X"],
    critic_decision := "approve", critic_feedback := "Good.",
    research_result := "X is 7", expert_answer := "7",
    expert_reasoning := "by research", final_answer := "7", final_reasoning := "done" }

/-- The reachable state two controller invocations into a run with a
one-step research plan and an approving critic: the planner has produced
`["Find X"]` and the critic has just approved the plan
(`current_step = "critic_planner"`). -/
def c4State : GraphState := runAux (fun _ => oneStepEnv) (input_interface "q") 0 2

/-- A log holding a single orchestrator-to-planner instruction. -/
def c6State : GraphState :=
  { input_interface "q" with agent_messages :=
      [{ sender := "orchestrator", receiver := "planner", type := "instruction",
         content := "hello", step_id := none }] }

/-- A state whose `current_step`/`next_step` hold a value outside the known
step enum. -/
def c7State : GraphState :=
  { input_interface "q" with current_step := "bogus", next_step := "bogus" }

/-- A state in which all three critic verdicts are `approve`, with a
one-step research plan fully researched: the three critic transitions
produce three distinct next steps from it. -/
def c9State : GraphState :=
  { input_interface "q" with
    research_steps := ["Find X"],
    current_research_index := 0,
    critic_planner_decision := "approve", critic_researcher_decision := "approve",
    critic_expert_decision := "approve" }

/-- An environment is valid for plan-size bound `N` when its critic
decision is an actual verdict (the critic adapter's output contract) and
its planner response has at most `N` research steps. -/
def ValidEnv (N : Nat) (env : LLMEnv) : Prop :=
  (env.critic_decision = "approve" ∨ env.critic_decision = "reject") ∧
  env.plan_research.length ≤ N

/-- Phase weight of a step name in the termination measure. -/
def phase (c : String) : Nat :=
  if c = "input" ∨ c = "" then 5
  else if c = "planner" then 4
  else if c = "critic_planner" then 3
  else if c = "researcher" then 4
  else if c = "critic_researcher" then 3
  else if c = "expert" then 2
  else if c = "critic_expert" then 1
  else 0

/-- Number of research-step dispatches already performed, clamped to the
plan-size bound `N`. -/
def idxN (N : Nat) (s : GraphState) : Nat :=
  min N (s.current_research_index + 1).toNat

/-- Termination measure: an upper bound on the number of controller
invocations still to come. -/
def mu (N : Nat) (s : GraphState) : Nat :=
  2 * (s.retry_limit - s.retry_count) + 2 * (N - idxN N s) + phase s.current_step

/-- Inductive invariant of the driver loop, holding at every state on which
the orchestrator is invoked (the initial state, and states just after an
agent node has run). -/
def Inv (N : Nat) (s : GraphState) : Prop :=
  s.error = none ∧
  s.research_steps.length ≤ N ∧
  (s.current_step = "input" ∨ s.current_step = "planner" ∨ s.current_step = "researcher" ∨
    s.current_step = "expert" ∨ s.current_step = "critic_planner" ∨
    s.current_step = "critic_researcher" ∨ s.current_step = "critic_expert" ∨
    s.current_step = "finalizer") ∧
  (s.current_step = "input" → s.retry_count = 0) ∧
  (s.current_step ≠ "input" → s.current_step ≠ "finalizer" →
    s.retry_count < s.retry_limit) ∧
  (s.current_step = "input" ∨ s.current_step = "planner" ∨ s.current_step = "critic_planner" →
    s.current_research_index = -1 ∧ s.critic_researcher_decision = "") ∧
  (s.current_step = "critic_planner" →
    s.critic_planner_decision = "approve" ∨ s.critic_planner_decision = "reject") ∧
  (s.current_step = "researcher" ∨ s.current_step = "critic_researcher" →
    0 ≤ s.current_research_index ∧
    s.current_research_index < (s.research_steps.length : Int) ∧
    (s.research_results.length : Int) = s.current_research_index + 1) ∧
  (s.current_step = "critic_researcher" →
    s.critic_researcher_decision = "approve" ∨ s.critic_researcher_decision = "reject") ∧
  (s.current_step = "critic_expert" →
    s.critic_expert_decision = "approve" ∨ s.critic_expert_decision = "reject") ∧
  (s.current_step = "finalizer" → s.next_step = "finalizer")

/-- The bound the specification claims, as a predicate on its unnamed
constant: every run reaches the finalizer within
`retry limit + number of research steps + c` controller invocations. -/
def specClaimedBound (c : Nat) : Prop :=
  ∀ (q : String) (L N : Nat) (envs : Nat → LLMEnv), (∀ i, ValidEnv N (envs i)) →
    (runAux envs (mkInit q L) 0 (L + N + c)).current_step = "finalizer"

/-- The per-invocation cursor property as claim C4 states it: whenever an
orchestrator invocation changes `current_research_index`, that invocation
was processing a `critic_researcher` approval, and the cursor moved up by
exactly one. -/
def cursorClaimC4 (s : GraphState) : Prop :=
  (orchestrator s).current_research_index ≠ s.current_research_index →
    s.current_step = "critic_researcher" ∧ s.critic_researcher_decision = "approve" ∧
    (orchestrator s).current_research_index = s.current_research_index + 1

/-! ## Helper lemmas -/

theorem pyGet_nonneg {α : Type} (l : List α) (i : Int) (h : 0 ≤ i) :
    pyGet l i = l.get? i.toNat := by
  unfold pyGet
  simp only [if_neg (by omega : ¬ i < 0), if_pos h]

theorem pyLast_append {α : Type} (l : List α) (a : α) : pyLast (l ++ [a]) = some a := by
  unfold pyLast pyGet
  have hlen : ((l ++ [a]).length : Int) = (l.length : Int) + 1 := by simp
  have h1 : ¬ ((-1 : Int) < 0) = False := by simp
  simp only [hlen]
  have : (l.length : Int) + 1 + (-1) = (l.length : Int) := by ring
  rw [if_pos (by omega : (-1 : Int) < 0), this, if_pos (by omega : (0 : Int) ≤ l.length)]
  have : ((l.length : Int)).toNat = l.length := by omega
  rw [this]
  simp

theorem filter_append_singleton {α : Type} (p : α → Bool) (l : List α) (a : α)
    (h : p a = true) : (l ++ [a]).filter p = l.filter p ++ [a] := by
  simp [List.filter_append, h]

theorem send_message_fields (s : GraphState) (m : AgentMessage) :
    (send_message s m).current_step = s.current_step ∧
    (send_message s m).next_step = s.next_step ∧
    (send_message s m).retry_count = s.retry_count ∧
    (send_message s m).retry_limit = s.retry_limit ∧
    (send_message s m).final_answer = s.final_answer ∧
    (send_message s m).final_reasoning_trace = s.final_reasoning_trace ∧
    (send_message s m).error = s.error ∧
    (send_message s m).agent_messages = s.agent_messages ++ [m] := by
  unfold send_message
  simp

theorem determine_preserves (s : GraphState) :
    (determine_next_step s).retry_limit = s.retry_limit ∧
    (determine_next_step s).current_step = s.current_step ∧
    (determine_next_step s).error = s.error ∧
    (determine_next_step s).final_answer = s.final_answer ∧
    (determine_next_step s).final_reasoning_trace = s.final_reasoning_trace ∧
    s.retry_count ≤ (determine_next_step s).retry_count := by
  unfold determine_next_step
  split_ifs <;> simp

theorem orchestrator_of_no_error (s : GraphState) (h : s.error = none) :
    orchestrator s = orchestrator_normal s := by
  simp [orchestrator, h]

theorem execute_of_next_finalizer (s : GraphState) (h : s.next_step = "finalizer") :
    ∃ m : AgentMessage,
      execute_next_step s = .ok (send_message { s with current_step := "finalizer" } m) := by
  simp [execute_next_step, h]

theorem determine_at_finalizer (s : GraphState) (h : s.current_step = "finalizer") :
    determine_next_step s = s := by
  simp [determine_next_step, h]

theorem check_fires (s : GraphState) (h : s.retry_limit ≤ s.retry_count) :
    check_retry_limit s =
      { s with next_step := "finalizer",
               final_answer := "The question could not be answered.",
               final_reasoning_trace := "The question could not be answered." } := by
  simp [check_retry_limit, h]

theorem check_skips (s : GraphState) (h : s.retry_count < s.retry_limit) :
    check_retry_limit s = s := by
  simp [check_retry_limit]
  omega

/-! ## Claim theorems (C3, C8, C9, C10) -/

/-- C3: on any orchestrator invocation in which the retry counter has
reached or exceeded the configured limit, the controller overrides
`next_step = "finalizer"`, establishes the failed state, and pre-fills
`final_answer`/`final_reasoning_trace` with the fixed failure message —
for every state, i.e. regardless of what the transition function chose. -/
theorem C3_retry_limit_enforcement (s : GraphState) (he : s.error = none)
    (hrl : s.retry_limit ≤ s.retry_count) :
    (orchestrator s).next_step = "finalizer" ∧
    (orchestrator s).current_step = "finalizer" ∧
    (orchestrator s).final_answer = "The question could not be answered." ∧
    (orchestrator s).final_reasoning_trace = "The question could not be answered." ∧
    failedFlag (orchestrator s) := by
  rw [orchestrator_of_no_error s he]
  unfold orchestrator_normal
  obtain ⟨h1, _h2, _h3, _h4, _h5, h6⟩ := determine_preserves s
  rw [check_fires (determine_next_step s) (by omega)]
  obtain ⟨m, hm⟩ := execute_of_next_finalizer
    { determine_next_step s with
      next_step := "finalizer",
      final_answer := "The question could not be answered.",
      final_reasoning_trace := "The question could not be answered." } (by simp)
  rw [hm]
  unfold failedFlag send_message
  simp
  omega

/-- C8: once the retry-limit-exceeded path has been taken (the state is at
the finalizer with the failed condition holding), every further
orchestrator invocation keeps `next_step = "finalizer"`, stays at the
finalizer, and does not increment the retry counter; the failed condition
persists. -/
theorem C8_failure_idempotent (s : GraphState) (hf : failedFlag s)
    (hc : s.current_step = "finalizer") :
    (orchestrator s).next_step = "finalizer" ∧
    (orchestrator s).current_step = "finalizer" ∧
    (orchestrator s).retry_count = s.retry_count ∧
    failedFlag (orchestrator s) := by
  unfold failedFlag at hf ⊢
  have hnormal : (orchestrator_normal s).next_step = "finalizer" ∧
      (orchestrator_normal s).current_step = "finalizer" ∧
      (orchestrator_normal s).retry_count = s.retry_count ∧
      (orchestrator_normal s).retry_limit ≤ (orchestrator_normal s).retry_count := by
    unfold orchestrator_normal
    rw [determine_at_finalizer s hc, check_fires s hf]
    obtain ⟨m, hm⟩ := execute_of_next_finalizer
      { s with
        next_step := "finalizer",
        final_answer := "The question could not be answered.",
        final_reasoning_trace := "The question could not be answered." } (by simp)
    rw [hm]
    unfold send_message
    simp
    omega
  cases herr : s.error with
  | none => rw [orchestrator_of_no_error s herr]; exact hnormal
  | some e =>
    by_cases he : e = ""
    · have : orchestrator s = orchestrator_normal s := by simp [orchestrator, herr, he]
      rw [this]; exact hnormal
    · have : orchestrator s = orchestrator_error_branch s e := by simp [orchestrator, herr, he]
      rw [this]
      unfold orchestrator_error_branch
      dsimp only
      split_ifs <;> simp_all

theorem router_ok_iff (s : GraphState) :
    (∃ a, route_from_orchestrator s = .ok a) ↔ s.current_step ∈ routerKnownSteps := by
  unfold route_from_orchestrator routerKnownSteps
  split_ifs <;> simp_all

theorem router_error_of_unknown (s : GraphState) (h : s.current_step ∉ routerKnownSteps) :
    route_from_orchestrator s = .error ("Invalid current step: " ++ s.current_step) := by
  unfold routerKnownSteps at h
  simp at h
  obtain ⟨n1, n2, n3, n4, n5, n6, n7⟩ := h
  simp [route_from_orchestrator, n1, n2, n3, n4, n5, n6, n7]

/-- C9: the router sends all three critic steps to the single `critic`
adapter; it succeeds exactly on the known step values and raises the
invalid-state error on everything else; and the controller's transitions
for the three critic steps remain pairwise distinct (witnessed at a state
with all three verdicts `approve`: they yield `researcher`, `expert` and
`finalizer` respectively). -/
theorem C9_critic_routing :
    (∀ s : GraphState,
      s.current_step = "critic_planner" ∨ s.current_step = "critic_researcher" ∨
        s.current_step = "critic_expert" →
      route_from_orchestrator s = .ok "critic") ∧
    (∀ s : GraphState,
      (∃ a, route_from_orchestrator s = .ok a) ↔ s.current_step ∈ routerKnownSteps) ∧
    (∀ s : GraphState, s.current_step ∉ routerKnownSteps →
      route_from_orchestrator s = .error ("Invalid current step: " ++ s.current_step)) ∧
    ((determine_next_step { c9State with current_step := "critic_planner" }).next_step
        = "researcher" ∧
     (determine_next_step { c9State with current_step := "critic_researcher" }).next_step
        = "expert" ∧
     (determine_next_step { c9State with current_step := "critic_expert" }).next_step
        = "finalizer") := by
  refine ⟨?_, router_ok_iff, router_error_of_unknown, by decide, by decide, by decide⟩
  intro s h
  rcases h with h | h | h <;> simp [route_from_orchestrator, h]

/-- C10: `handle_agent_error` always records the error (message and
component); it increments the shared retry counter exactly when the error
message contains neither "network" nor "timeout" case-insensitively, and
leaves the counter unchanged when it contains either. -/
theorem C10_retry_carveout (s : GraphState) (component e : String) :
    (handle_agent_error s component e).error = some (component ++ " failed: " ++ e) ∧
    (handle_agent_error s component e).error_component = some component ∧
    (strContains (pyLower e) "network" = false → strContains (pyLower e) "timeout" = false →
      (handle_agent_error s component e).retry_count = s.retry_count + 1) ∧
    (strContains (pyLower e) "network" = true ∨ strContains (pyLower e) "timeout" = true →
      (handle_agent_error s component e).retry_count = s.retry_count) := by
  unfold handle_agent_error set_error_state
  dsimp only
  split_ifs <;> simp_all

theorem pySet_nonneg {α : Type} (l : List α) (idx : Nat) (v : α) (h : idx < l.length) :
    pySet l (idx : Int) v = some (l.set idx v) := by
  unfold pySet
  dsimp only
  rw [if_neg (by omega : ¬ ((idx : Int) < 0)),
    if_pos (show (0 : Int) ≤ (idx : Int) ∧ ((idx : Int)).toNat < l.length from
      ⟨by omega, by simpa using h⟩)]
  simp

theorem filter_and_two {α : Type} (p q : α → Bool) (l : List α) :
    (l.filter p).filter q = l.filter fun a => p a && q a := by
  induction l with
  | nil => rfl
  | cons x xs ih =>
    cases hp : p x <;> cases hq : q x <;>
      simp only [List.filter_cons, hp, hq, Bool.false_and, Bool.true_and,
        Bool.and_false, Bool.and_true, ite_true, ite_false, ih] <;>
      simp only [Bool.false_eq_true, ite_false, ite_true, reduceIte, ih]

theorem filter_and_assoc {α : Type} (p q r : α → Bool) (l : List α) :
    ((l.filter p).filter q).filter r = l.filter fun a => p a && q a && r a := by
  induction l with
  | nil => rfl
  | cons x xs ih =>
    cases hp : p x <;> cases hq : q x <;> cases hr : r x <;>
      simp only [List.filter_cons, hp, hq, hr, Bool.false_and, Bool.true_and,
        Bool.and_false, Bool.and_true, ite_true, ite_false, ih] <;>
      simp only [Bool.false_eq_true, ite_false, ite_true, if_neg, reduceIte, ih]

theorem storeSeq_eq (res : Nat → String) (n : Nat) :
    storeSeq res n = some ((List.range n).map res) := by
  induction n with
  | zero => rfl
  | succ k ih =>
    unfold storeSeq
    rw [ih]
    have hlen : (((List.range k).map res).length : Int) ≤ (k : Int) := by simp
    simp only [Option.bind_some, store_research_result, if_pos hlen]
    have : List.range (k + 1) = List.range k ++ [k] := by simp [List.range_succ]
    simp [this]

/-- C5: processing research steps `0..k` in order with approvals only
yields a results array of length `k+1` whose `i`-th entry is the
researcher's result for step `i`; an over-the-end store appends
(`len <= index`), and an in-range store (the retry of a rejected step)
keeps the length and overwrites exactly that index. -/
theorem C5_growth_law :
    (∀ (res : Nat → String) (k : Nat),
      storeSeq res (k + 1) = some ((List.range (k + 1)).map res) ∧
      ((List.range (k + 1)).map res).length = k + 1 ∧
      (∀ i : Nat, i ≤ k → ((List.range (k + 1)).map res).get? i = some (res i))) ∧
    (∀ (l : List String) (idx : Int) (r : String), (l.length : Int) ≤ idx →
      store_research_result l idx r = some (l ++ [r])) ∧
    (∀ (l : List String) (idx : Nat) (r : String), idx < l.length →
      store_research_result l (idx : Int) r = some (l.set idx r) ∧
      (l.set idx r).length = l.length ∧
      (l.set idx r).get? idx = some r ∧
      (∀ j : Nat, j ≠ idx → (l.set idx r).get? j = l.get? j)) := by
  refine ⟨?_, ?_, ?_⟩
  · intro res k
    refine ⟨storeSeq_eq res (k + 1), by simp, ?_⟩
    intro i hi
    rw [List.get?_map, List.get?_range (by omega)]
    rfl
  · intro l idx r h
    simp [store_research_result, h]
  · intro l idx r h
    have hnot : ¬ ((l.length : Int) ≤ (idx : Int)) := by omega
    refine ⟨?_, by simp, List.get?_set_eq_of_lt r h, ?_⟩
    · rw [store_research_result, if_neg hnot]
      exact pySet_nonneg l idx r h
    · intro j hj
      exact List.get?_set_ne r l (Ne.symm hj)

/-- C5 witness: a concrete in-order run of three approvals and a concrete
in-place retry overwrite. -/
theorem C5_growth_law_witness :
    storeSeq (fun i => toString i) 3 = some ["0", "1", "2"] ∧
    store_research_result ["a", "b"] 2 "c" = some ["a", "b", "c"] ∧
    store_research_result ["a", "b"] 1 "c" = some ["a", "c"] :=
  ⟨by have := (C5_growth_law.1 (fun i => toString i) 2).1; simpa using this,
   C5_growth_law.2.1 ["a", "b"] 2 "c" (by decide),
   by have := (C5_growth_law.2.2 ["a", "b"] 1 "c" (by decide)).1; simpa using this⟩

/-- C6 (amended): for every role and log, the conversation filter returns
exactly the spec's filtered subsequence — messages between the role and the
orchestrator, in log order, restricted to the given `step_id` and, when a
*non-empty* kinds list is given, to those kinds; it is total and returns a
sublist of the log.  (The amendment: an explicitly given *empty* kinds list
is treated by the source as "no kinds filter".) -/
theorem C6_conversation_filter (s : GraphState) (agent_name : String) (step_id : Option Int) :
    get_agent_conversation s agent_name none step_id
      = conversation_spec s agent_name none step_id ∧
    (∀ ts : List String, ts ≠ [] →
      get_agent_conversation s agent_name (some ts) step_id
        = conversation_spec s agent_name (some ts) step_id) ∧
    List.Sublist (get_agent_conversation s agent_name none step_id) s.agent_messages := by
  have hdir : ∀ (types : Option (List String)),
      (types = none ∨ (∃ ts, types = some ts ∧ ts ≠ [])) →
      get_agent_conversation s agent_name types step_id
        = conversation_spec s agent_name types step_id := by
    intro types htypes
    unfold get_agent_conversation conversation_spec
    cases step_id with
    | none =>
      rcases htypes with h | ⟨ts, h, hne⟩ <;> subst h <;> dsimp only
      · simp
      · rw [if_neg hne, filter_and_two]
        simp
    | some sid =>
      rcases htypes with h | ⟨ts, h, hne⟩ <;> subst h <;> dsimp only
      · rw [filter_and_two]
        simp
      · rw [if_neg hne, filter_and_assoc]
  refine ⟨hdir none (Or.inl rfl), fun ts hne => hdir (some ts) (Or.inr ⟨ts, rfl, hne⟩), ?_⟩
  rw [hdir none (Or.inl rfl)]
  exact List.filter_sublist s.agent_messages

/-- C6 counterexample: with an explicitly given *empty* kinds list the
source returns the whole direction-filtered conversation (Python
`if types:` treats `[]` as absent), while the claim's filter — "messages
whose kind is among the given kinds" — returns nothing. -/
theorem C6_conversation_filter_cex :
    get_agent_conversation c6State "planner" (some []) none
      ≠ conversation_spec c6State "planner" (some []) none := by decide

/-- C6 witness: the amended filter applied to a concrete one-message log,
with and without a non-empty kinds list. -/
theorem C6_conversation_filter_witness :
    get_agent_conversation c6State "planner" none none
      = conversation_spec c6State "planner" none none ∧
    get_agent_conversation c6State "planner" (some ["instruction"]) none
      = conversation_spec c6State "planner" (some ["instruction"]) none :=
  ⟨(C6_conversation_filter c6State "planner" none).1,
   (C6_conversation_filter c6State "planner" none).2.1 ["instruction"] (by decide)⟩

theorem bigStep_frozen (env : LLMEnv) (s : GraphState) (h : s.current_step = "finalizer") :
    bigStep env s = s := by
  simp [bigStep, h]

theorem runAux_frozen (envs : Nat → LLMEnv) (s : GraphState) (i k : Nat)
    (h : s.current_step = "finalizer") : runAux envs s i k = s := by
  induction k generalizing i with
  | zero => rfl
  | succ k ih =>
    rw [runAux, bigStep_frozen _ _ h]
    exact ih _

theorem runAux_add (envs : Nat → LLMEnv) (s : GraphState) (i a b : Nat) :
    runAux envs s i (a + b) = runAux envs (runAux envs s i a) (i + a) b := by
  induction a generalizing s i with
  | zero => simp [runAux]
  | succ a ih =>
    have h1 : a + 1 + b = (a + b) + 1 := by omega
    rw [h1, runAux, runAux, ih]
    have h2 : i + 1 + a = i + (a + 1) := by omega
    rw [h2]

/-- C2: the transition at `critic_planner`:
on `approve` with a non-empty research plan, next step `researcher` with the
research cursor reset to `-1`, and the results and per-step researcher
states cleared; on `approve` with an empty plan, next step `expert` with
cursor and results untouched; on `reject`, next step `planner` with the
retry counter incremented by one.  In the spec's no-research scenario the
cursor furthermore stays `-1` and the results stay empty for the whole
run. -/
theorem C2_critic_planner_transition :
    (∀ s : GraphState, s.current_step = "critic_planner" →
      (s.critic_planner_decision = "approve" → s.research_steps ≠ [] →
        (determine_next_step s).next_step = "researcher" ∧
        (determine_next_step s).current_research_index = -1 ∧
        (determine_next_step s).research_results = [] ∧
        (determine_next_step s).researcher_states = [] ∧
        (determine_next_step s).retry_count = s.retry_count) ∧
      (s.critic_planner_decision = "approve" → s.research_steps = [] →
        (determine_next_step s).next_step = "expert" ∧
        (determine_next_step s).current_research_index = s.current_research_index ∧
        (determine_next_step s).research_results = s.research_results ∧
        (determine_next_step s).retry_count = s.retry_count) ∧
      (s.critic_planner_decision = "reject" →
        (determine_next_step s).next_step = "planner" ∧
        (determine_next_step s).retry_count = s.retry_count + 1)) ∧
    (∀ k : Nat,
      (runAux (fun _ => noResearchEnv) (input_interface "What is 2 + 2?") 0 k).current_research_index
        = -1 ∧
      (runAux (fun _ => noResearchEnv) (input_interface "What is 2 + 2?") 0 k).research_results
        = []) := by
  constructor
  · intro s hc
    refine ⟨?_, ?_, ?_⟩
    · intro hd hne
      have hlen : 0 < s.research_steps.length := by
        cases hs : s.research_steps with
        | nil => exact absurd hs hne
        | cons a l => simp [hs]
      simp [determine_next_step, hc, hd, hlen]
    · intro hd hempty
      simp [determine_next_step, hc, hd, hempty]
    · intro hd
      simp [determine_next_step, hc, hd]
  · intro k
    by_cases hk : k ≤ 5
    · interval_cases k <;> exact ⟨by decide, by decide⟩
    · have h5 : (runAux (fun _ => noResearchEnv) (input_interface "What is 2 + 2?") 0 5).current_step
          = "finalizer" := by decide
      have hsplit : k = 5 + (k - 5) := by omega
      rw [hsplit, runAux_add, runAux_frozen _ _ _ _ h5]
      exact ⟨by decide, by decide⟩

/-- C2 witness: the approve-with-plan transition at a concrete reachable
critic state, and the scenario state three invocations in. -/
theorem C2_critic_planner_transition_witness :
    (determine_next_step { c9State with current_step := "critic_planner" }).next_step
      = "researcher" ∧
    (determine_next_step { c9State with current_step := "critic_planner" }).current_research_index
      = -1 ∧
    (runAux (fun _ => noResearchEnv) (input_interface "What is 2 + 2?") 0 3).current_research_index
      = -1 :=
  ⟨((C2_critic_planner_transition.1 _ rfl).1 rfl (by decide)).1,
   ((C2_critic_planner_transition.1 _ rfl).1 rfl (by decide)).2.1,
   (C2_critic_planner_transition.2 3).1⟩

/-- C3 witness: a concrete state over the limit. -/
theorem C3_retry_limit_enforcement_witness :
    ({ input_interface "q" with retry_count := 7 } : GraphState).error = none ∧
    ({ input_interface "q" with retry_count := 7 } : GraphState).retry_limit ≤
      ({ input_interface "q" with retry_count := 7 } : GraphState).retry_count ∧
    (orchestrator { input_interface "q" with retry_count := 7 }).next_step = "finalizer" ∧
    (orchestrator { input_interface "q" with retry_count := 7 }).final_answer =
      "The question could not be answered." :=
  ⟨rfl, by decide,
   (C3_retry_limit_enforcement { input_interface "q" with retry_count := 7 } rfl (by decide)).1,
   (C3_retry_limit_enforcement { input_interface "q" with retry_count := 7 } rfl
     (by decide)).2.2.1⟩

/-- C8 witness: a concrete post-failure state. -/
theorem C8_failure_idempotent_witness :
    failedFlag ({ input_interface "q" with retry_count := 9, current_step := "finalizer" } :
      GraphState) ∧
    (orchestrator { input_interface "q" with retry_count := 9, current_step := "finalizer" }).next_step
      = "finalizer" ∧
    (orchestrator { input_interface "q" with retry_count := 9, current_step := "finalizer" }).retry_count
      = 9 :=
  ⟨by unfold failedFlag; decide,
   (C8_failure_idempotent _ (by unfold failedFlag; decide) rfl).1,
   (C8_failure_idempotent _ (by unfold failedFlag; decide) rfl).2.2.1⟩

/-- C9 witness: concrete routing of a critic step and of an unknown step. -/
theorem C9_critic_routing_witness :
    route_from_orchestrator { input_interface "q" with current_step := "critic_researcher" }
      = .ok "critic" ∧
    route_from_orchestrator { input_interface "q" with current_step := "bogus-step" }
      = .error ("Invalid current step: " ++ "bogus-step") :=
  ⟨C9_critic_routing.1 _ (Or.inr (Or.inl rfl)),
   C9_critic_routing.2.2.1 _ (by decide)⟩

/-- C10 witness: a plain error increments the counter; a (case-insensitive)
network error does not, while still being recorded. -/
theorem C10_retry_carveout_witness :
    (handle_agent_error (input_interface "q") "planner" "boom").retry_count
      = (input_interface "q").retry_count + 1 ∧
    (handle_agent_error (input_interface "q") "planner" "NETWORK down").retry_count
      = (input_interface "q").retry_count ∧
    (handle_agent_error (input_interface "q") "planner" "NETWORK down").error
      = some ("planner failed: " ++ "NETWORK down") :=
  ⟨(C10_retry_carveout (input_interface "q") "planner" "boom").2.2.1 (by decide) (by decide),
   (C10_retry_carveout (input_interface "q") "planner" "NETWORK down").2.2.2
     (Or.inl (by decide)),
   (C10_retry_carveout (input_interface "q") "planner" "NETWORK down").1⟩

/-- C7: any exception raised inside the orchestrator's three sub-steps is
caught and recorded as a session-level error carrying the component name
and message; any recorded error forces the next orchestrator invocation to
`next_step = "finalizer"` with a generated failure answer; and the router
is the only place an invalid `current_step` escapes, as a fatal
invalid-state error. -/
theorem C7_exception_containment :
    (∀ (s sMut : GraphState) (e : String), s.error = none →
      execute_next_step (check_retry_limit (determine_next_step s)) = .error (e, sMut) →
      orchestrator s = handle_agent_error sMut "orchestrator" e ∧
      (orchestrator s).error = some ("orchestrator failed: " ++ e) ∧
      (orchestrator s).error_component = some "orchestrator") ∧
    (∀ (s : GraphState) (e : String), s.error = some e → e ≠ "" →
      (orchestrator s).next_step = "finalizer" ∧
      (s.final_answer = "" → (orchestrator s).final_answer =
        "The question could not be answered due to an error: " ++ e)) ∧
    (∀ s : GraphState, s.current_step ∈ routerKnownSteps →
      ∃ a, route_from_orchestrator s = .ok a) ∧
    (∀ s : GraphState, s.current_step ∉ routerKnownSteps →
      route_from_orchestrator s = .error ("Invalid current step: " ++ s.current_step)) := by
  refine ⟨?_, ?_, fun s h => (router_ok_iff s).mpr h, router_error_of_unknown⟩
  · intro s sMut e he hex
    have h1 : orchestrator s = handle_agent_error sMut "orchestrator" e := by
      rw [orchestrator_of_no_error s he]
      unfold orchestrator_normal
      rw [hex]
    refine ⟨h1, ?_, ?_⟩ <;> rw [h1] <;>
      unfold handle_agent_error set_error_state <;> dsimp only <;> split_ifs <;> simp
  · intro s e he hne
    have hb : orchestrator s = orchestrator_error_branch s e := by
      simp [orchestrator, he, hne]
    rw [hb]
    unfold orchestrator_error_branch
    dsimp only
    constructor
    · split_ifs <;> simp
    · intro hfa
      rw [if_pos hfa]
      split_ifs <;> simp

/-- C7 witness: an invalid step raised inside `execute_next_step` is caught
and recorded, while the router surfaces it as the fatal invalid-state
error. -/
theorem C7_exception_containment_witness :
    c7State.error = none ∧
    (orchestrator c7State).error
      = some ("orchestrator failed: " ++ "Invalid current step: bogus") ∧
    (orchestrator c7State).error_component = some "orchestrator" ∧
    route_from_orchestrator c7State = .error ("Invalid current step: " ++ "bogus") :=
  ⟨rfl,
   (C7_exception_containment.1 c7State { c7State with current_step := "bogus" }
     "Invalid current step: bogus" rfl rfl).2.1,
   (C7_exception_containment.1 c7State { c7State with current_step := "bogus" }
     "Invalid current step: bogus" rfl rfl).2.2,
   C7_exception_containment.2.2.2 c7State (by decide)⟩

/-! ## Orchestrator transition lemmas

One lemma per (current step, decision, retry-limit outcome) case of a
controller invocation, each giving the exact resulting state up to the
appended instruction message. -/

theorem orch_input (s : GraphState) (he : s.error = none) (hc : s.current_step = "input")
    (hrc : s.retry_count < s.retry_limit) :
    ∃ m : AgentMessage,
      orchestrator s = send_message
        { s with current_step := "planner", next_step := "planner" } m ∧
      m.sender = "orchestrator" ∧ m.receiver = "planner" := by
  rw [orchestrator_of_no_error s he]
  unfold orchestrator_normal
  have hdet : determine_next_step s = { s with next_step := "planner" } := by
    simp [determine_next_step, hc]
  rw [hdet, check_skips _ (by simpa using hrc)]
  by_cases hd : s.critic_planner_decision = "reject" <;>
    · simp [execute_next_step, hd]
      exact ⟨_, rfl, rfl, rfl⟩

theorem orch_input_limit (s : GraphState) (he : s.error = none)
    (hc : s.current_step = "input") (hrc : s.retry_limit ≤ s.retry_count) :
    (orchestrator s).current_step = "finalizer" ∧
    (orchestrator s).current_research_index = s.current_research_index := by
  rw [orchestrator_of_no_error s he]
  unfold orchestrator_normal
  have hdet : determine_next_step s = { s with next_step := "planner" } := by
    simp [determine_next_step, hc]
  rw [hdet, check_fires _ (by exact hrc)]
  simp [execute_next_step, send_message]

theorem orch_planner (s : GraphState) (he : s.error = none)
    (hc : s.current_step = "planner") (hrc : s.retry_count < s.retry_limit) :
    ∃ m : AgentMessage,
      orchestrator s = send_message
        { s with current_step := "critic_planner", next_step := "critic_planner" } m ∧
      m.sender = "orchestrator" ∧ m.receiver = "critic_planner" := by
  rw [orchestrator_of_no_error s he]
  unfold orchestrator_normal
  have hdet : determine_next_step s = { s with next_step := "critic_planner" } := by
    simp [determine_next_step, hc]
  rw [hdet, check_skips _ (by simpa using hrc)]
  simp [execute_next_step]
  exact ⟨_, rfl, rfl, rfl⟩

theorem orch_cp_reject_cont (s : GraphState) (he : s.error = none)
    (hc : s.current_step = "critic_planner") (hd : s.critic_planner_decision = "reject")
    (hrc : s.retry_count + 1 < s.retry_limit) :
    ∃ m : AgentMessage,
      orchestrator s = send_message
        { s with current_step := "planner", next_step := "planner",
                 retry_count := s.retry_count + 1 } m ∧
      m.sender = "orchestrator" ∧ m.receiver = "planner" := by
  rw [orchestrator_of_no_error s he]
  unfold orchestrator_normal
  have hdet : determine_next_step s =
      { s with next_step := "planner", retry_count := s.retry_count + 1 } := by
    simp [determine_next_step, hc, hd]
  rw [hdet, check_skips _ (by simpa using hrc)]
  simp [execute_next_step, hd]
  exact ⟨_, rfl, rfl, rfl⟩

theorem orch_cp_reject_limit (s : GraphState) (he : s.error = none)
    (hc : s.current_step = "critic_planner") (hd : s.critic_planner_decision = "reject")
    (hrc : s.retry_limit ≤ s.retry_count + 1) :
    (orchestrator s).current_step = "finalizer" ∧
    (orchestrator s).current_research_index = s.current_research_index := by
  rw [orchestrator_of_no_error s he]
  unfold orchestrator_normal
  have hdet : determine_next_step s =
      { s with next_step := "planner", retry_count := s.retry_count + 1 } := by
    simp [determine_next_step, hc, hd]
  rw [hdet, check_fires _ (by exact hrc)]
  simp [execute_next_step, send_message]

theorem pyGet_nonneg_lt {α : Type} (l : List α) (i : Int) (h0 : 0 ≤ i)
    (hl : i < (l.length : Int)) : ∃ x, pyGet l i = some x := by
  rw [pyGet_nonneg l i h0]
  have hlt : i.toNat < l.length := by omega
  exact ⟨_, List.get?_eq_get hlt⟩

theorem orch_cp_approve_res (s : GraphState) (he : s.error = none)
    (hc : s.current_step = "critic_planner") (hd : s.critic_planner_decision = "approve")
    (hne : 0 < s.research_steps.length) (hcrd : s.critic_researcher_decision ≠ "reject")
    (hrc : s.retry_count < s.retry_limit) :
    ∃ m : AgentMessage,
      orchestrator s = send_message
        { s with current_step := "researcher", next_step := "researcher",
                 current_research_index := 0, research_results := [],
                 researcher_states := [] } m ∧
      m.sender = "orchestrator" ∧ m.receiver = "researcher" ∧ m.step_id = some 0 := by
  rw [orchestrator_of_no_error s he]
  unfold orchestrator_normal
  have hdet : determine_next_step s =
      { s with next_step := "researcher", current_research_index := -1,
               research_results := [], researcher_states := [] } := by
    simp [determine_next_step, hc, hd, hne]
  rw [hdet, check_skips _ (by simpa using hrc)]
  obtain ⟨x, hx⟩ := pyGet_nonneg_lt s.research_steps 0 (by omega) (by exact_mod_cast hne)
  have hlt : ((-1 : Int) + 1) < (s.research_steps.length : Int) := by
    omega
  simp [execute_next_step, hcrd, hlt, hne, (by norm_num : (-1 : Int) + 1 = 0), hx]
  exact ⟨_, rfl, rfl, rfl, rfl⟩

theorem orch_cp_approve_exp (s : GraphState) (he : s.error = none)
    (hc : s.current_step = "critic_planner") (hd : s.critic_planner_decision = "approve")
    (hne : s.research_steps.length = 0) (hrc : s.retry_count < s.retry_limit) :
    ∃ m : AgentMessage,
      orchestrator s = send_message
        { s with current_step := "expert", next_step := "expert" } m ∧
      m.sender = "orchestrator" ∧ m.receiver = "expert" := by
  rw [orchestrator_of_no_error s he]
  unfold orchestrator_normal
  have hdet : determine_next_step s = { s with next_step := "expert" } := by
    simp [determine_next_step, hc, hd, hne]
  rw [hdet, check_skips _ (by simpa using hrc)]
  by_cases hced : s.critic_expert_decision = "reject" <;>
    · simp [execute_next_step, hced]
      exact ⟨_, rfl, rfl, rfl⟩

theorem orch_researcher (s : GraphState) (he : s.error = none)
    (hc : s.current_step = "researcher") (h0 : 0 ≤ s.current_research_index)
    (hres : (s.research_results.length : Int) = s.current_research_index + 1)
    (hrc : s.retry_count < s.retry_limit) :
    ∃ m : AgentMessage,
      orchestrator s = send_message
        { s with current_step := "critic_researcher", next_step := "critic_researcher" } m ∧
      m.sender = "orchestrator" ∧ m.receiver = "critic_researcher" ∧
      m.step_id = some s.current_research_index := by
  rw [orchestrator_of_no_error s he]
  unfold orchestrator_normal
  have hdet : determine_next_step s = { s with next_step := "critic_researcher" } := by
    simp [determine_next_step, hc]
  rw [hdet, check_skips _ (by simpa using hrc)]
  obtain ⟨x, hx⟩ := pyGet_nonneg_lt s.research_results s.current_research_index h0 (by omega)
  have hlt : s.current_research_index < (s.research_results.length : Int) := by omega
  simp [execute_next_step, hlt, hx]
  exact ⟨_, rfl, rfl, rfl, rfl⟩

theorem orch_cr_approve_done (s : GraphState) (he : s.error = none)
    (hc : s.current_step = "critic_researcher")
    (hd : s.critic_researcher_decision = "approve")
    (hdone : (s.research_steps.length : Int) - 1 ≤ s.current_research_index)
    (hrc : s.retry_count < s.retry_limit) :
    ∃ m : AgentMessage,
      orchestrator s = send_message
        { s with current_step := "expert", next_step := "expert" } m ∧
      m.sender = "orchestrator" ∧ m.receiver = "expert" := by
  rw [orchestrator_of_no_error s he]
  unfold orchestrator_normal
  have hdet : determine_next_step s = { s with next_step := "expert" } := by
    simp [determine_next_step, hc, hd, hdone]
  rw [hdet, check_skips _ (by simpa using hrc)]
  by_cases hced : s.critic_expert_decision = "reject" <;>
    · simp [execute_next_step, hced]
      exact ⟨_, rfl, rfl, rfl⟩

theorem orch_cr_approve_cont (s : GraphState) (he : s.error = none)
    (hc : s.current_step = "critic_researcher")
    (hd : s.critic_researcher_decision = "approve")
    (h0 : 0 ≤ s.current_research_index)
    (hlt : s.current_research_index < (s.research_steps.length : Int) - 1)
    (hrc : s.retry_count < s.retry_limit) :
    ∃ m : AgentMessage,
      orchestrator s = send_message
        { s with current_step := "researcher", next_step := "researcher",
                 current_research_index := s.current_research_index + 1 } m ∧
      m.sender = "orchestrator" ∧ m.receiver = "researcher" ∧
      m.step_id = some (s.current_research_index + 1) := by
  rw [orchestrator_of_no_error s he]
  unfold orchestrator_normal
  have hdet : determine_next_step s = { s with next_step := "researcher" } := by
    simp [determine_next_step, hc, hd]
    omega
  rw [hdet, check_skips _ (by simpa using hrc)]
  obtain ⟨x, hx⟩ := pyGet_nonneg_lt s.research_steps (s.current_research_index + 1)
    (by omega) (by omega)
  have hlt2 : s.current_research_index + 1 < (s.research_steps.length : Int) := by omega
  simp [execute_next_step, hd, hlt2, hx]
  exact ⟨_, rfl, rfl, rfl, rfl⟩

theorem orch_cr_reject_cont (s : GraphState) (he : s.error = none)
    (hc : s.current_step = "critic_researcher")
    (hd : s.critic_researcher_decision = "reject")
    (hrc : s.retry_count + 1 < s.retry_limit) :
    ∃ m : AgentMessage,
      orchestrator s = send_message
        { s with current_step := "researcher", next_step := "researcher",
                 retry_count := s.retry_count + 1 } m ∧
      m.sender = "orchestrator" ∧ m.receiver = "researcher" ∧
      m.step_id = some s.current_research_index := by
  rw [orchestrator_of_no_error s he]
  unfold orchestrator_normal
  have hdet : determine_next_step s =
      { s with next_step := "researcher", retry_count := s.retry_count + 1 } := by
    simp [determine_next_step, hc, hd]
  rw [hdet, check_skips _ (by simpa using hrc)]
  simp [execute_next_step, hd]
  exact ⟨_, rfl, rfl, rfl, rfl⟩

theorem orch_cr_reject_limit (s : GraphState) (he : s.error = none)
    (hc : s.current_step = "critic_researcher")
    (hd : s.critic_researcher_decision = "reject")
    (hrc : s.retry_limit ≤ s.retry_count + 1) :
    (orchestrator s).current_step = "finalizer" ∧
    (orchestrator s).current_research_index = s.current_research_index := by
  rw [orchestrator_of_no_error s he]
  unfold orchestrator_normal
  have hdet : determine_next_step s =
      { s with next_step := "researcher", retry_count := s.retry_count + 1 } := by
    simp [determine_next_step, hc, hd]
  rw [hdet, check_fires _ (by exact hrc)]
  simp [execute_next_step, send_message]

theorem orch_expert (s : GraphState) (he : s.error = none)
    (hc : s.current_step = "expert") (hrc : s.retry_count < s.retry_limit) :
    ∃ m : AgentMessage,
      orchestrator s = send_message
        { s with current_step := "critic_expert", next_step := "critic_expert" } m ∧
      m.sender = "orchestrator" ∧ m.receiver = "critic_expert" := by
  rw [orchestrator_of_no_error s he]
  unfold orchestrator_normal
  have hdet : determine_next_step s = { s with next_step := "critic_expert" } := by
    simp [determine_next_step, hc]
  rw [hdet, check_skips _ (by simpa using hrc)]
  simp [execute_next_step]
  exact ⟨_, rfl, rfl, rfl⟩

theorem orch_ce_approve (s : GraphState) (he : s.error = none)
    (hc : s.current_step = "critic_expert") (hd : s.critic_expert_decision = "approve")
    (hrc : s.retry_count < s.retry_limit) :
    ∃ m : AgentMessage,
      orchestrator s = send_message
        { s with current_step := "finalizer", next_step := "finalizer" } m := by
  rw [orchestrator_of_no_error s he]
  unfold orchestrator_normal
  have hdet : determine_next_step s = { s with next_step := "finalizer" } := by
    simp [determine_next_step, hc, hd]
  rw [hdet, check_skips _ (by simpa using hrc)]
  simp [execute_next_step]

theorem orch_ce_reject_cont (s : GraphState) (he : s.error = none)
    (hc : s.current_step = "critic_expert") (hd : s.critic_expert_decision = "reject")
    (hrc : s.retry_count + 1 < s.retry_limit) :
    ∃ m : AgentMessage,
      orchestrator s = send_message
        { s with current_step := "expert", next_step := "expert",
                 retry_count := s.retry_count + 1 } m ∧
      m.sender = "orchestrator" ∧ m.receiver = "expert" := by
  rw [orchestrator_of_no_error s he]
  unfold orchestrator_normal
  have hdet : determine_next_step s =
      { s with next_step := "expert", retry_count := s.retry_count + 1 } := by
    simp [determine_next_step, hc, hd]
  rw [hdet, check_skips _ (by simpa using hrc)]
  simp [execute_next_step, hd]
  exact ⟨_, rfl, rfl, rfl⟩

theorem orch_ce_reject_limit (s : GraphState) (he : s.error = none)
    (hc : s.current_step = "critic_expert") (hd : s.critic_expert_decision = "reject")
    (hrc : s.retry_limit ≤ s.retry_count + 1) :
    (orchestrator s).current_step = "finalizer" ∧
    (orchestrator s).current_research_index = s.current_research_index := by
  rw [orchestrator_of_no_error s he]
  unfold orchestrator_normal
  have hdet : determine_next_step s =
      { s with next_step := "expert", retry_count := s.retry_count + 1 } := by
    simp [determine_next_step, hc, hd]
  rw [hdet, check_fires _ (by exact hrc)]
  simp [execute_next_step, send_message]

theorem orch_at_finalizer (s : GraphState) (he : s.error = none)
    (hc : s.current_step = "finalizer") (hn : s.next_step = "finalizer") :
    (orchestrator s).current_step = "finalizer" ∧
    (orchestrator s).current_research_index = s.current_research_index := by
  rw [orchestrator_of_no_error s he]
  unfold orchestrator_normal
  rw [determine_at_finalizer s hc]
  by_cases hrl : s.retry_limit ≤ s.retry_count
  · rw [check_fires s hrl]
    simp [execute_next_step, send_message]
  · rw [check_skips s (by omega)]
    simp [execute_next_step, hn, send_message]

/-! ## Agent node lemmas -/

theorem conv_last (s : GraphState) (name : String) (l : List AgentMessage)
    (m0 : AgentMessage) (hl : s.agent_messages = l ++ [m0])
    (hs : m0.sender = "orchestrator") (hr : m0.receiver = name) :
    ∃ pre, get_agent_conversation s name none none = pre ++ [m0] := by
  unfold get_agent_conversation
  rw [hl]
  dsimp only
  rw [filter_append_singleton _ _ _ (by simp [hs, hr])]
  exact ⟨_, rfl⟩

theorem conv_last_step (s : GraphState) (name : String) (sid : Int)
    (l : List AgentMessage) (m0 : AgentMessage) (hl : s.agent_messages = l ++ [m0])
    (hs : m0.sender = "orchestrator") (hr : m0.receiver = name)
    (hstep : m0.step_id = some sid) :
    ∃ pre, get_agent_conversation s name none (some sid) = pre ++ [m0] := by
  unfold get_agent_conversation
  rw [hl]
  dsimp only
  rw [filter_append_singleton _ _ _ (by simp [hs, hr]),
      filter_append_singleton _ _ _ (by simp [hstep])]
  exact ⟨_, rfl⟩

theorem convert_append_last (pre : List AgentMessage) (m0 : AgentMessage) :
    ∃ c, convert_agent_messages_to_langchain (pre ++ [m0])
      = convert_agent_messages_to_langchain pre ++ [c] := by
  unfold convert_agent_messages_to_langchain
  rw [List.map_append]
  exact ⟨_, rfl⟩

theorem planner_node_eq (env : LLMEnv) (s : GraphState) :
    ∃ m : AgentMessage, planner_node env s = send_message
      { s with research_steps := env.plan_research,
               expert_steps := env.plan_expert } m :=
  ⟨_, rfl⟩

theorem critic_cp_eq (env : LLMEnv) (s : GraphState)
    (hc : s.current_step = "critic_planner")
    (l : List AgentMessage) (m0 : AgentMessage) (hl : s.agent_messages = l ++ [m0])
    (hs : m0.sender = "orchestrator") (hr : m0.receiver = "critic_planner") :
    ∃ m : AgentMessage, critic env s = send_message
      { s with critic_planner_decision := env.critic_decision,
               critic_planner_feedback := env.critic_feedback } m := by
  obtain ⟨pre, hconv⟩ := conv_last s "critic_planner" l m0 hl hs hr
  unfold critic
  rw [if_pos hc]
  unfold critic_planner_body
  rw [hconv, pyLast_append]
  exact ⟨_, rfl⟩

theorem critic_cr_eq (env : LLMEnv) (s : GraphState)
    (hc : s.current_step = "critic_researcher")
    (h0 : 0 ≤ s.current_research_index)
    (hlt : s.current_research_index < (s.research_steps.length : Int))
    (l : List AgentMessage) (m0 : AgentMessage) (hl : s.agent_messages = l ++ [m0])
    (hs : m0.sender = "orchestrator") (hr : m0.receiver = "critic_researcher")
    (hstep : m0.step_id = some s.current_research_index) :
    ∃ m : AgentMessage, critic env s = send_message
      { s with critic_researcher_decision := env.critic_decision,
               critic_researcher_feedback := env.critic_feedback } m := by
  obtain ⟨req, hreq⟩ := pyGet_nonneg_lt s.research_steps s.current_research_index h0 hlt
  obtain ⟨pre, hconv⟩ :=
    conv_last_step s "critic_researcher" s.current_research_index l m0 hl hs hr hstep
  unfold critic
  rw [if_neg (by simp [hc]), if_pos hc]
  unfold critic_researcher_body
  rw [hreq, hconv, pyLast_append]
  exact ⟨_, rfl⟩

theorem critic_ce_eq (env : LLMEnv) (s : GraphState)
    (hc : s.current_step = "critic_expert")
    (l : List AgentMessage) (m0 : AgentMessage) (hl : s.agent_messages = l ++ [m0])
    (hs : m0.sender = "orchestrator") (hr : m0.receiver = "critic_expert") :
    ∃ m : AgentMessage, critic env s = send_message
      { s with critic_expert_decision := env.critic_decision,
               critic_expert_feedback := env.critic_feedback } m := by
  obtain ⟨pre, hconv⟩ := conv_last s "critic_expert" l m0 hl hs hr
  unfold critic
  rw [if_neg (by simp [hc]), if_neg (by simp [hc]), if_pos hc]
  unfold critic_expert_body
  rw [hconv, pyLast_append]
  exact ⟨_, rfl⟩

theorem expert_node_eq (env : LLMEnv) (s : GraphState)
    (l : List AgentMessage) (m0 : AgentMessage) (hl : s.agent_messages = l ++ [m0])
    (hs : m0.sender = "orchestrator") (hr : m0.receiver = "expert") :
    ∃ (m : AgentMessage) (es : ExpertState), expert_node env s = send_message
      { s with expert_state := some es, expert_answer := env.expert_answer,
               expert_reasoning := env.expert_reasoning } m := by
  obtain ⟨pre, hconv⟩ := conv_last s "expert" l m0 hl hs hr
  obtain ⟨c, hc2⟩ := convert_append_last pre m0
  unfold expert_node expert_body
  rw [hconv]
  dsimp only
  rw [hc2, pyLast_append]
  cases hes : s.expert_state with
  | none => exact ⟨_, _, rfl⟩
  | some es0 => exact ⟨_, _, rfl⟩

theorem researcher_finish_eq (env : LLMEnv) (s : GraphState) (idx : Int)
    (rstate : ResearcherState) (h0 : 0 ≤ idx)
    (hlen : (s.research_results.length : Int) = idx ∨
            (s.research_results.length : Int) = idx + 1) :
    ∃ (m : AgentMessage) (rs : List (Int × ResearcherState)) (newResults : List String),
      researcher_finish env s idx rstate = .ok (send_message
        { s with researcher_states := rs, research_results := newResults } m) ∧
      (newResults.length : Int) = idx + 1 := by
  unfold researcher_finish
  dsimp only
  rcases hlen with h | h
  · have hstore : store_research_result s.research_results idx env.research_result
        = some (s.research_results ++ [env.research_result]) := by
      unfold store_research_result
      rw [if_pos (by omega)]
    rw [hstore]
    dsimp only
    have hget : pyGet (s.research_results ++ [env.research_result]) idx
        = some env.research_result := by
      rw [pyGet_nonneg _ _ h0]
      have hn : idx.toNat = s.research_results.length := by omega
      rw [hn]
      exact List.get?_concat_length _ _
    rw [hget]
    refine ⟨_, _, _, rfl, ?_⟩
    simp
    omega
  · have hlt : idx.toNat < s.research_results.length := by omega
    have hstore : store_research_result s.research_results idx env.research_result
        = some (s.research_results.set idx.toNat env.research_result) := by
      unfold store_research_result
      rw [if_neg (by omega)]
      unfold pySet
      dsimp only
      rw [if_neg (by omega : ¬ (idx < 0)), if_pos ⟨h0, hlt⟩]
    rw [hstore]
    dsimp only
    obtain ⟨x, hx⟩ := pyGet_nonneg_lt
      (s.research_results.set idx.toNat env.research_result) idx h0 (by simp; omega)
    rw [hx]
    refine ⟨_, _, _, rfl, ?_⟩
    simp
    omega

theorem researcher_node_eq (env : LLMEnv) (s : GraphState)
    (l : List AgentMessage) (m0 : AgentMessage) (hl : s.agent_messages = l ++ [m0])
    (hs : m0.sender = "orchestrator") (hr : m0.receiver = "researcher")
    (hstep : m0.step_id = some s.current_research_index)
    (h0 : 0 ≤ s.current_research_index)
    (hlen : (s.research_results.length : Int) = s.current_research_index ∨
            (s.research_results.length : Int) = s.current_research_index + 1) :
    ∃ (m : AgentMessage) (rs : List (Int × ResearcherState)) (newResults : List String),
      researcher_node env s = send_message
        { s with researcher_states := rs, research_results := newResults } m ∧
      (newResults.length : Int) = s.current_research_index + 1 := by
  obtain ⟨pre, hconv⟩ :=
    conv_last_step s "researcher" s.current_research_index l m0 hl hs hr hstep
  obtain ⟨c, hc2⟩ := convert_append_last pre m0
  unfold researcher_node researcher_body
  dsimp only
  rw [hconv, hc2]
  cases hlu : dictLookup s.researcher_states s.current_research_index with
  | none =>
    obtain ⟨m, rs, nr, hfin, hlen'⟩ :=
      researcher_finish_eq env s s.current_research_index _ h0 hlen
    rw [hfin]
    exact ⟨m, rs, nr, rfl, hlen'⟩
  | some rstate =>
    rw [pyLast_append]
    dsimp only
    obtain ⟨m, rs, nr, hfin, hlen'⟩ :=
      researcher_finish_eq env s s.current_research_index _ h0 hlen
    rw [hfin]
    exact ⟨m, rs, nr, rfl, hlen'⟩

/-! ## Composed driver-step lemmas -/

theorem bigStep_eq_routed (env : LLMEnv) (s t : GraphState) (m : AgentMessage)
    (hne : s.current_step ≠ "finalizer")
    (horch : orchestrator s = send_message t m) :
    bigStep env s = routed_node env (send_message t m) := by
  unfold bigStep
  rw [if_neg hne, horch]

theorem routed_finalizer (env : LLMEnv) (X : GraphState)
    (h : X.current_step = "finalizer") :
    routed_node env X = finalizer_node env X := by
  simp [routed_node, route_from_orchestrator, h]

/-- The finalizer node only sets the two final fields and appends a message:
every control-relevant field is preserved. -/
theorem finalizer_node_fields (env : LLMEnv) (X : GraphState) :
    (finalizer_node env X).current_step = X.current_step ∧
    (finalizer_node env X).retry_count = X.retry_count ∧
    (finalizer_node env X).retry_limit = X.retry_limit ∧
    (finalizer_node env X).error = X.error ∧
    (finalizer_node env X).current_research_index = X.current_research_index ∧
    (finalizer_node env X).research_steps = X.research_steps ∧
    (finalizer_node env X).research_results = X.research_results := by
  unfold finalizer_node send_message
  simp

theorem bigStep_of_orch_finalizer (env : LLMEnv) (s : GraphState)
    (hne : s.current_step ≠ "finalizer")
    (h : (orchestrator s).current_step = "finalizer") :
    bigStep env s = finalizer_node env (orchestrator s) := by
  unfold bigStep
  rw [if_neg hne, routed_finalizer env _ h]

theorem routed_planner (env : LLMEnv) (X : GraphState) (h : X.current_step = "planner") :
    routed_node env X = planner_node env X := by
  simp [routed_node, route_from_orchestrator, h]

theorem routed_researcher (env : LLMEnv) (X : GraphState)
    (h : X.current_step = "researcher") :
    routed_node env X = researcher_node env X := by
  simp [routed_node, route_from_orchestrator, h]

theorem routed_expert (env : LLMEnv) (X : GraphState) (h : X.current_step = "expert") :
    routed_node env X = expert_node env X := by
  simp [routed_node, route_from_orchestrator, h]

theorem routed_critic (env : LLMEnv) (X : GraphState)
    (h : X.current_step = "critic_planner" ∨ X.current_step = "critic_researcher" ∨
      X.current_step = "critic_expert") :
    routed_node env X = critic env X := by
  rcases h with h | h | h <;> simp [routed_node, route_from_orchestrator, h]

theorem bigStep_input (env : LLMEnv) (s : GraphState) (he : s.error = none)
    (hc : s.current_step = "input") (hrc : s.retry_count < s.retry_limit) :
    (bigStep env s).current_step = "planner" ∧
    (bigStep env s).retry_count = s.retry_count ∧
    (bigStep env s).retry_limit = s.retry_limit ∧
    (bigStep env s).error = s.error ∧
    (bigStep env s).current_research_index = s.current_research_index ∧
    (bigStep env s).critic_planner_decision = s.critic_planner_decision ∧
    (bigStep env s).critic_researcher_decision = s.critic_researcher_decision ∧
    (bigStep env s).critic_expert_decision = s.critic_expert_decision ∧
    (bigStep env s).research_steps = env.plan_research ∧
    (bigStep env s).research_results = s.research_results := by
  obtain ⟨m, horch, hms, hmr⟩ := orch_input s he hc hrc
  rw [bigStep_eq_routed env s _ m (by simp [hc]) horch,
      routed_planner env _ (by simp [send_message])]
  obtain ⟨m2, hpn⟩ := planner_node_eq env _
  rw [hpn]
  simp [send_message]

theorem bigStep_planner (env : LLMEnv) (s : GraphState) (he : s.error = none)
    (hc : s.current_step = "planner") (hrc : s.retry_count < s.retry_limit) :
    (bigStep env s).current_step = "critic_planner" ∧
    (bigStep env s).retry_count = s.retry_count ∧
    (bigStep env s).retry_limit = s.retry_limit ∧
    (bigStep env s).error = s.error ∧
    (bigStep env s).current_research_index = s.current_research_index ∧
    (bigStep env s).critic_planner_decision = env.critic_decision ∧
    (bigStep env s).critic_researcher_decision = s.critic_researcher_decision ∧
    (bigStep env s).critic_expert_decision = s.critic_expert_decision ∧
    (bigStep env s).research_steps = s.research_steps ∧
    (bigStep env s).research_results = s.research_results := by
  obtain ⟨m, horch, hms, hmr⟩ := orch_planner s he hc hrc
  rw [bigStep_eq_routed env s _ m (by simp [hc]) horch,
      routed_critic env _ (by simp [send_message])]
  obtain ⟨m2, hcn⟩ := critic_cp_eq env
    (send_message
      { s with current_step := "critic_planner", next_step := "critic_planner" } m)
    (by simp [send_message]) s.agent_messages m (by simp [send_message]) hms hmr
  rw [hcn]
  simp [send_message]

theorem bigStep_cp_approve_res (env : LLMEnv) (s : GraphState) (he : s.error = none)
    (hc : s.current_step = "critic_planner") (hd : s.critic_planner_decision = "approve")
    (hne : 0 < s.research_steps.length) (hcrd : s.critic_researcher_decision = "")
    (hrc : s.retry_count < s.retry_limit) :
    (bigStep env s).current_step = "researcher" ∧
    (bigStep env s).retry_count = s.retry_count ∧
    (bigStep env s).retry_limit = s.retry_limit ∧
    (bigStep env s).error = s.error ∧
    (bigStep env s).current_research_index = 0 ∧
    (bigStep env s).critic_researcher_decision = s.critic_researcher_decision ∧
    (bigStep env s).research_steps = s.research_steps ∧
    ((bigStep env s).research_results.length : Int) = 1 := by
  obtain ⟨m, horch, hms, hmr, hmsid⟩ := orch_cp_approve_res s he hc hd hne
    (by simp [hcrd]) hrc
  rw [bigStep_eq_routed env s _ m (by simp [hc]) horch,
      routed_researcher env _ (by simp [send_message])]
  obtain ⟨m2, rs, nr, hrn, hlen⟩ := researcher_node_eq env
    (send_message
      { s with current_step := "researcher", next_step := "researcher",
               current_research_index := 0, research_results := [],
               researcher_states := [] } m)
    s.agent_messages m (by simp [send_message]) hms hmr (by simp [send_message, hmsid])
    (by simp [send_message]) (Or.inl (by simp [send_message]))
  rw [hrn]
  refine ⟨by simp [send_message], by simp [send_message], by simp [send_message],
    by simp [send_message], by simp [send_message], by simp [send_message],
    by simp [send_message], ?_⟩
  simpa [send_message] using hlen

theorem bigStep_cp_approve_exp (env : LLMEnv) (s : GraphState) (he : s.error = none)
    (hc : s.current_step = "critic_planner") (hd : s.critic_planner_decision = "approve")
    (hne : s.research_steps.length = 0) (hrc : s.retry_count < s.retry_limit) :
    (bigStep env s).current_step = "expert" ∧
    (bigStep env s).retry_count = s.retry_count ∧
    (bigStep env s).retry_limit = s.retry_limit ∧
    (bigStep env s).error = s.error ∧
    (bigStep env s).current_research_index = s.current_research_index ∧
    (bigStep env s).research_steps = s.research_steps := by
  obtain ⟨m, horch, hms, hmr⟩ := orch_cp_approve_exp s he hc hd hne hrc
  rw [bigStep_eq_routed env s _ m (by simp [hc]) horch,
      routed_expert env _ (by simp [send_message])]
  obtain ⟨m2, es, hen⟩ := expert_node_eq env
    (send_message { s with current_step := "expert", next_step := "expert" } m)
    s.agent_messages m (by simp [send_message]) hms hmr
  rw [hen]
  simp [send_message]

theorem bigStep_cp_reject_cont (env : LLMEnv) (s : GraphState) (he : s.error = none)
    (hc : s.current_step = "critic_planner") (hd : s.critic_planner_decision = "reject")
    (hrc : s.retry_count + 1 < s.retry_limit) :
    (bigStep env s).current_step = "planner" ∧
    (bigStep env s).retry_count = s.retry_count + 1 ∧
    (bigStep env s).retry_limit = s.retry_limit ∧
    (bigStep env s).error = s.error ∧
    (bigStep env s).current_research_index = s.current_research_index ∧
    (bigStep env s).critic_planner_decision = s.critic_planner_decision ∧
    (bigStep env s).critic_researcher_decision = s.critic_researcher_decision ∧
    (bigStep env s).research_steps = env.plan_research ∧
    (bigStep env s).research_results = s.research_results := by
  obtain ⟨m, horch, hms, hmr⟩ := orch_cp_reject_cont s he hc hd hrc
  rw [bigStep_eq_routed env s _ m (by simp [hc]) horch,
      routed_planner env _ (by simp [send_message])]
  obtain ⟨m2, hpn⟩ := planner_node_eq env _
  rw [hpn]
  simp [send_message]

theorem bigStep_researcher (env : LLMEnv) (s : GraphState) (he : s.error = none)
    (hc : s.current_step = "researcher") (h0 : 0 ≤ s.current_research_index)
    (hlt : s.current_research_index < (s.research_steps.length : Int))
    (hres : (s.research_results.length : Int) = s.current_research_index + 1)
    (hrc : s.retry_count < s.retry_limit) :
    (bigStep env s).current_step = "critic_researcher" ∧
    (bigStep env s).retry_count = s.retry_count ∧
    (bigStep env s).retry_limit = s.retry_limit ∧
    (bigStep env s).error = s.error ∧
    (bigStep env s).current_research_index = s.current_research_index ∧
    (bigStep env s).critic_researcher_decision = env.critic_decision ∧
    (bigStep env s).research_steps = s.research_steps ∧
    (bigStep env s).research_results = s.research_results := by
  obtain ⟨m, horch, hms, hmr, hmsid⟩ := orch_researcher s he hc h0 hres hrc
  rw [bigStep_eq_routed env s _ m (by simp [hc]) horch,
      routed_critic env _ (by simp [send_message])]
  obtain ⟨m2, hcn⟩ := critic_cr_eq env
    (send_message
      { s with current_step := "critic_researcher", next_step := "critic_researcher" } m)
    (by simp [send_message]) (by simpa [send_message] using h0)
    (by simpa [send_message] using hlt)
    s.agent_messages m (by simp [send_message]) hms hmr
    (by simp [send_message, hmsid])
  rw [hcn]
  simp [send_message]

theorem bigStep_cr_approve_done (env : LLMEnv) (s : GraphState) (he : s.error = none)
    (hc : s.current_step = "critic_researcher")
    (hd : s.critic_researcher_decision = "approve")
    (hdone : (s.research_steps.length : Int) - 1 ≤ s.current_research_index)
    (hrc : s.retry_count < s.retry_limit) :
    (bigStep env s).current_step = "expert" ∧
    (bigStep env s).retry_count = s.retry_count ∧
    (bigStep env s).retry_limit = s.retry_limit ∧
    (bigStep env s).error = s.error ∧
    (bigStep env s).current_research_index = s.current_research_index ∧
    (bigStep env s).research_steps = s.research_steps := by
  obtain ⟨m, horch, hms, hmr⟩ := orch_cr_approve_done s he hc hd hdone hrc
  rw [bigStep_eq_routed env s _ m (by simp [hc]) horch,
      routed_expert env _ (by simp [send_message])]
  obtain ⟨m2, es, hen⟩ := expert_node_eq env
    (send_message { s with current_step := "expert", next_step := "expert" } m)
    s.agent_messages m (by simp [send_message]) hms hmr
  rw [hen]
  simp [send_message]

theorem bigStep_cr_approve_cont (env : LLMEnv) (s : GraphState) (he : s.error = none)
    (hc : s.current_step = "critic_researcher")
    (hd : s.critic_researcher_decision = "approve")
    (h0 : 0 ≤ s.current_research_index)
    (hlt : s.current_research_index < (s.research_steps.length : Int) - 1)
    (hres : (s.research_results.length : Int) = s.current_research_index + 1)
    (hrc : s.retry_count < s.retry_limit) :
    (bigStep env s).current_step = "researcher" ∧
    (bigStep env s).retry_count = s.retry_count ∧
    (bigStep env s).retry_limit = s.retry_limit ∧
    (bigStep env s).error = s.error ∧
    (bigStep env s).current_research_index = s.current_research_index + 1 ∧
    (bigStep env s).research_steps = s.research_steps ∧
    ((bigStep env s).research_results.length : Int) = s.current_research_index + 2 := by
  obtain ⟨m, horch, hms, hmr, hmsid⟩ := orch_cr_approve_cont s he hc hd h0 hlt hrc
  rw [bigStep_eq_routed env s _ m (by simp [hc]) horch,
      routed_researcher env _ (by simp [send_message])]
  obtain ⟨m2, rs, nr, hrn, hlen⟩ := researcher_node_eq env
    (send_message
      { s with current_step := "researcher", next_step := "researcher",
               current_research_index := s.current_research_index + 1 } m)
    s.agent_messages m (by simp [send_message]) hms hmr (by simp [send_message, hmsid])
    (by simp [send_message]; omega) (Or.inl (by simp [send_message]; omega))
  rw [hrn]
  refine ⟨by simp [send_message], by simp [send_message], by simp [send_message],
    by simp [send_message], by simp [send_message], by simp [send_message], ?_⟩
  have := hlen
  simp [send_message] at this ⊢
  omega

theorem bigStep_cr_reject_cont (env : LLMEnv) (s : GraphState) (he : s.error = none)
    (hc : s.current_step = "critic_researcher")
    (hd : s.critic_researcher_decision = "reject")
    (h0 : 0 ≤ s.current_research_index)
    (hres : (s.research_results.length : Int) = s.current_research_index + 1)
    (hrc : s.retry_count + 1 < s.retry_limit) :
    (bigStep env s).current_step = "researcher" ∧
    (bigStep env s).retry_count = s.retry_count + 1 ∧
    (bigStep env s).retry_limit = s.retry_limit ∧
    (bigStep env s).error = s.error ∧
    (bigStep env s).current_research_index = s.current_research_index ∧
    (bigStep env s).research_steps = s.research_steps ∧
    ((bigStep env s).research_results.length : Int) = s.current_research_index + 1 := by
  obtain ⟨m, horch, hms, hmr, hmsid⟩ := orch_cr_reject_cont s he hc hd hrc
  rw [bigStep_eq_routed env s _ m (by simp [hc]) horch,
      routed_researcher env _ (by simp [send_message])]
  obtain ⟨m2, rs, nr, hrn, hlen⟩ := researcher_node_eq env
    (send_message
      { s with current_step := "researcher", next_step := "researcher",
               retry_count := s.retry_count + 1 } m)
    s.agent_messages m (by simp [send_message]) hms hmr (by simp [send_message, hmsid])
    (by simp [send_message]; omega) (Or.inr (by simp [send_message]; omega))
  rw [hrn]
  refine ⟨by simp [send_message], by simp [send_message], by simp [send_message],
    by simp [send_message], by simp [send_message], by simp [send_message], ?_⟩
  have := hlen
  simp [send_message] at this ⊢
  omega

theorem bigStep_expert (env : LLMEnv) (s : GraphState) (he : s.error = none)
    (hc : s.current_step = "expert") (hrc : s.retry_count < s.retry_limit) :
    (bigStep env s).current_step = "critic_expert" ∧
    (bigStep env s).retry_count = s.retry_count ∧
    (bigStep env s).retry_limit = s.retry_limit ∧
    (bigStep env s).error = s.error ∧
    (bigStep env s).current_research_index = s.current_research_index ∧
    (bigStep env s).critic_expert_decision = env.critic_decision ∧
    (bigStep env s).research_steps = s.research_steps := by
  obtain ⟨m, horch, hms, hmr⟩ := orch_expert s he hc hrc
  rw [bigStep_eq_routed env s _ m (by simp [hc]) horch,
      routed_critic env _ (by simp [send_message])]
  obtain ⟨m2, hcn⟩ := critic_ce_eq env
    (send_message
      { s with current_step := "critic_expert", next_step := "critic_expert" } m)
    (by simp [send_message]) s.agent_messages m (by simp [send_message]) hms hmr
  rw [hcn]
  simp [send_message]

theorem bigStep_ce_reject_cont (env : LLMEnv) (s : GraphState) (he : s.error = none)
    (hc : s.current_step = "critic_expert") (hd : s.critic_expert_decision = "reject")
    (hrc : s.retry_count + 1 < s.retry_limit) :
    (bigStep env s).current_step = "expert" ∧
    (bigStep env s).retry_count = s.retry_count + 1 ∧
    (bigStep env s).retry_limit = s.retry_limit ∧
    (bigStep env s).error = s.error ∧
    (bigStep env s).current_research_index = s.current_research_index ∧
    (bigStep env s).research_steps = s.research_steps := by
  obtain ⟨m, horch, hms, hmr⟩ := orch_ce_reject_cont s he hc hd hrc
  rw [bigStep_eq_routed env s _ m (by simp [hc]) horch,
      routed_expert env _ (by simp [send_message])]
  obtain ⟨m2, es, hen⟩ := expert_node_eq env
    (send_message
      { s with current_step := "expert", next_step := "expert",
               retry_count := s.retry_count + 1 } m)
    s.agent_messages m (by simp [send_message]) hms hmr
  rw [hen]
  simp [send_message]

/-! ## Progress: every driver step decreases the measure or finalizes -/

theorem bigStep_progress (N : Nat) (env : LLMEnv) (henv : ValidEnv N env)
    (s : GraphState) (hI : Inv N s) (hne : s.current_step ≠ "finalizer") :
    (bigStep env s).current_step = "finalizer" ∨
      (Inv N (bigStep env s) ∧ mu N (bigStep env s) < mu N s) := by
  obtain ⟨henvd, henvl⟩ := henv
  obtain ⟨he, hlen, hsteps, hin, hretry, hppc, hcpd, hres, hcrd, hced, hfin⟩ := hI
  have hlenN : (s.research_steps.length : Int) ≤ (N : Int) := by exact_mod_cast hlen
  rcases hsteps with hc | hc | hc | hc | hc | hc | hc | hc
  · -- current_step = "input"
    have hrc0 : s.retry_count = 0 := hin hc
    obtain ⟨hidx, hcrd0⟩ := hppc (Or.inl hc)
    by_cases hL : s.retry_count < s.retry_limit
    · obtain ⟨h1, h2, h3, h4, h5, h6, h7, h8, h9, h10⟩ := bigStep_input env s he hc hL
      right
      constructor
      · exact ⟨by rw [h4, he], by rw [h9]; exact henvl, by simp [h1],
          by simp [h1], fun _ _ => by rw [h2, h3]; exact hL,
          fun _ => ⟨by rw [h5, hidx], by rw [h7, hcrd0]⟩,
          by simp [h1], by simp [h1], by simp [h1], by simp [h1], by simp [h1]⟩
      · unfold mu idxN
        rw [h1, h2, h3, h5, hc, hidx]
        simp [phase]
    · left
      rw [bigStep_of_orch_finalizer env s (by simp [hc])
        (orch_input_limit s he hc (by omega)).1,
        (finalizer_node_fields env (orchestrator s)).1]
      exact (orch_input_limit s he hc (by omega)).1
  · -- current_step = "planner"
    have hL : s.retry_count < s.retry_limit := hretry (by simp [hc]) (by simp [hc])
    obtain ⟨hidx, hcrd0⟩ := hppc (Or.inr (Or.inl hc))
    obtain ⟨h1, h2, h3, h4, h5, h6, h7, h8, h9, h10⟩ := bigStep_planner env s he hc hL
    right
    constructor
    · exact ⟨by rw [h4, he], by rw [h9]; exact hlen, by simp [h1],
        by simp [h1], fun _ _ => by rw [h2, h3]; exact hL,
        fun _ => ⟨by rw [h5, hidx], by rw [h7, hcrd0]⟩,
        fun _ => by rw [h6]; exact henvd,
        by simp [h1], by simp [h1], by simp [h1], by simp [h1]⟩
    · unfold mu idxN
      rw [h1, h2, h3, h5, hc]
      simp [phase]
  · -- current_step = "researcher"
    have hL : s.retry_count < s.retry_limit := hretry (by simp [hc]) (by simp [hc])
    obtain ⟨h0, hlt, hreslen⟩ := hres (Or.inl hc)
    obtain ⟨h1, h2, h3, h4, h5, h6, h7, h8⟩ :=
      bigStep_researcher env s he hc h0 hlt hreslen hL
    right
    constructor
    · exact ⟨by rw [h4, he], by rw [h7]; exact hlen, by simp [h1],
        by simp [h1], fun _ _ => by rw [h2, h3]; exact hL,
        by simp [h1],
        by simp [h1],
        fun _ => ⟨by rw [h5]; exact h0, by rw [h5, h7]; exact hlt,
          by rw [h8, h5]; exact hreslen⟩,
        fun _ => by rw [h6]; exact henvd,
        by simp [h1], by simp [h1]⟩
    · unfold mu idxN
      rw [h1, h2, h3, h5, hc]
      simp [phase]
  · -- current_step = "expert"
    have hL : s.retry_count < s.retry_limit := hretry (by simp [hc]) (by simp [hc])
    obtain ⟨h1, h2, h3, h4, h5, h6, h7⟩ := bigStep_expert env s he hc hL
    right
    constructor
    · exact ⟨by rw [h4, he], by rw [h7]; exact hlen, by simp [h1],
        by simp [h1], fun _ _ => by rw [h2, h3]; exact hL,
        by simp [h1], by simp [h1], by simp [h1], by simp [h1],
        fun _ => by rw [h6]; exact henvd, by simp [h1]⟩
    · unfold mu idxN
      rw [h1, h2, h3, h5, hc]
      simp [phase]
  · -- current_step = "critic_planner"
    have hL : s.retry_count < s.retry_limit := hretry (by simp [hc]) (by simp [hc])
    obtain ⟨hidx, hcrd0⟩ := hppc (Or.inr (Or.inr hc))
    rcases hcpd hc with ha | hr
    · by_cases hplan : 0 < s.research_steps.length
      · obtain ⟨h1, h2, h3, h4, h5, h6, h7, h8⟩ :=
          bigStep_cp_approve_res env s he hc ha hplan hcrd0 hL
        have hN : 1 ≤ N := le_trans hplan hlen
        right
        constructor
        · exact ⟨by rw [h4, he], by rw [h7]; exact hlen, by simp [h1],
            by simp [h1], fun _ _ => by rw [h2, h3]; exact hL,
            by simp [h1], by simp [h1],
            fun _ => ⟨by rw [h5], by rw [h5, h7]; exact_mod_cast hplan,
              by rw [h8, h5]; norm_num⟩,
            by simp [h1], by simp [h1], by simp [h1]⟩
        · unfold mu idxN
          rw [h1, h2, h3, h5, hc, hidx]
          simp [phase]
          omega
      · have hplan0 : s.research_steps.length = 0 := by omega
        obtain ⟨h1, h2, h3, h4, h5, h6⟩ :=
          bigStep_cp_approve_exp env s he hc ha hplan0 hL
        right
        constructor
        · exact ⟨by rw [h4, he], by rw [h6]; exact hlen, by simp [h1],
            by simp [h1], fun _ _ => by rw [h2, h3]; exact hL,
            by simp [h1], by simp [h1], by simp [h1], by simp [h1],
            by simp [h1], by simp [h1]⟩
        · unfold mu idxN
          rw [h1, h2, h3, h5, hc]
          simp [phase]
    · by_cases hL2 : s.retry_count + 1 < s.retry_limit
      · obtain ⟨h1, h2, h3, h4, h5, h6, h7, h8, h9⟩ :=
          bigStep_cp_reject_cont env s he hc hr hL2
        right
        constructor
        · exact ⟨by rw [h4, he], by rw [h8]; exact henvl, by simp [h1],
            by simp [h1], fun _ _ => by rw [h2, h3]; exact hL2,
            fun _ => ⟨by rw [h5, hidx], by rw [h7, hcrd0]⟩,
            by simp [h1], by simp [h1], by simp [h1], by simp [h1], by simp [h1]⟩
        · unfold mu idxN
          rw [h1, h2, h3, h5, hc]
          simp [phase]
          omega
      · left
        rw [bigStep_of_orch_finalizer env s (by simp [hc])
          (orch_cp_reject_limit s he hc hr (by omega)).1,
          (finalizer_node_fields env (orchestrator s)).1]
        exact (orch_cp_reject_limit s he hc hr (by omega)).1
  · -- current_step = "critic_researcher"
    have hL : s.retry_count < s.retry_limit := hretry (by simp [hc]) (by simp [hc])
    obtain ⟨h0, hlt, hreslen⟩ := hres (Or.inr hc)
    rcases hcrd hc with ha | hr
    · by_cases hdone : (s.research_steps.length : Int) - 1 ≤ s.current_research_index
      · obtain ⟨h1, h2, h3, h4, h5, h6⟩ :=
          bigStep_cr_approve_done env s he hc ha hdone hL
        right
        constructor
        · exact ⟨by rw [h4, he], by rw [h6]; exact hlen, by simp [h1],
            by simp [h1], fun _ _ => by rw [h2, h3]; exact hL,
            by simp [h1], by simp [h1], by simp [h1], by simp [h1],
            by simp [h1], by simp [h1]⟩
        · unfold mu idxN
          rw [h1, h2, h3, h5, hc]
          simp [phase]
      · have hcont : s.current_research_index < (s.research_steps.length : Int) - 1 := by
          omega
        obtain ⟨h1, h2, h3, h4, h5, h6, h7⟩ :=
          bigStep_cr_approve_cont env s he hc ha h0 hcont hreslen hL
        right
        constructor
        · exact ⟨by rw [h4, he], by rw [h6]; exact hlen, by simp [h1],
            by simp [h1], fun _ _ => by rw [h2, h3]; exact hL,
            by simp [h1], by simp [h1],
            fun _ => ⟨by rw [h5]; omega, by rw [h5, h6]; omega,
              by rw [h7, h5]; omega⟩,
            by simp [h1], by simp [h1], by simp [h1]⟩
        · unfold mu idxN
          rw [h1, h2, h3, h5, hc]
          simp [phase]
          omega
    · by_cases hL2 : s.retry_count + 1 < s.retry_limit
      · obtain ⟨h1, h2, h3, h4, h5, h6, h7⟩ :=
          bigStep_cr_reject_cont env s he hc hr h0 hreslen hL2
        right
        constructor
        · exact ⟨by rw [h4, he], by rw [h6]; exact hlen, by simp [h1],
            by simp [h1], fun _ _ => by rw [h2, h3]; exact hL2,
            by simp [h1], by simp [h1],
            fun _ => ⟨by rw [h5]; exact h0, by rw [h5, h6]; exact hlt,
              by rw [h7, h5]⟩,
            by simp [h1], by simp [h1], by simp [h1]⟩
        · unfold mu idxN
          rw [h1, h2, h3, h5, hc]
          simp [phase]
          omega
      · left
        rw [bigStep_of_orch_finalizer env s (by simp [hc])
          (orch_cr_reject_limit s he hc hr (by omega)).1,
          (finalizer_node_fields env (orchestrator s)).1]
        exact (orch_cr_reject_limit s he hc hr (by omega)).1
  · -- current_step = "critic_expert"
    have hL : s.retry_count < s.retry_limit := hretry (by simp [hc]) (by simp [hc])
    rcases hced hc with ha | hr
    · left
      obtain ⟨m, horch⟩ := orch_ce_approve s he hc ha hL
      have hfin2 : (orchestrator s).current_step = "finalizer" := by
        rw [horch]; simp [send_message]
      rw [bigStep_of_orch_finalizer env s (by simp [hc]) hfin2,
        (finalizer_node_fields env (orchestrator s)).1]
      exact hfin2
    · by_cases hL2 : s.retry_count + 1 < s.retry_limit
      · obtain ⟨h1, h2, h3, h4, h5, h6⟩ := bigStep_ce_reject_cont env s he hc hr hL2
        right
        constructor
        · exact ⟨by rw [h4, he], by rw [h6]; exact hlen, by simp [h1],
            by simp [h1], fun _ _ => by rw [h2, h3]; exact hL2,
            by simp [h1], by simp [h1], by simp [h1], by simp [h1],
            by simp [h1], by simp [h1]⟩
        · unfold mu idxN
          rw [h1, h2, h3, h5, hc]
          simp [phase]
          omega
      · left
        rw [bigStep_of_orch_finalizer env s (by simp [hc])
          (orch_ce_reject_limit s he hc hr (by omega)).1,
          (finalizer_node_fields env (orchestrator s)).1]
        exact (orch_ce_reject_limit s he hc hr (by omega)).1
  · exact absurd hc hne

/-! ## Core run lemmas and claims C1 and C4 -/

theorem run_reaches_finalizer (N : Nat) (envs : Nat → LLMEnv)
    (hE : ∀ i, ValidEnv N (envs i)) :
    ∀ (k : Nat) (s : GraphState) (i : Nat), Inv N s → mu N s ≤ k →
      (runAux envs s i k).current_step = "finalizer" := by
  intro k
  induction k with
  | zero =>
    intro s i hI hmu
    obtain ⟨-, -, hsteps, -, -, -, -, -, -, -, -⟩ := hI
    have hphase : phase s.current_step ≤ 0 := by
      unfold mu at hmu
      omega
    show s.current_step = "finalizer"
    rcases hsteps with hc | hc | hc | hc | hc | hc | hc | hc <;>
      first
        | exact hc
        | (rw [hc] at hphase; simp [phase] at hphase)
  | succ k ih =>
    intro s i hI hmu
    by_cases hfin : s.current_step = "finalizer"
    · rw [runAux, bigStep_frozen _ _ hfin, runAux_frozen _ _ _ _ hfin]
      exact hfin
    · rcases bigStep_progress N (envs i) (hE i) s hI hfin with h | ⟨hI', hlt⟩
      · rw [runAux, runAux_frozen _ _ _ _ h]
        exact h
      · rw [runAux]
        exact ih _ _ hI' (by omega)

theorem Inv_mkInit (N : Nat) (q : String) (L : Nat) : Inv N (mkInit q L) := by
  unfold Inv mkInit input_interface
  simp

theorem mu_mkInit (N : Nat) (q : String) (L : Nat) :
    mu N (mkInit q L) = 2 * L + 2 * N + 5 := by
  unfold mu idxN phase mkInit input_interface
  simp

theorem runAux_two (envs : Nat → LLMEnv) (s : GraphState) (i : Nat) :
    runAux envs s i 2 = bigStep (envs (i + 1)) (bigStep (envs i) s) := by
  simp [runAux]

/-- In the always-reject run, after `2k+2` controller invocations (for any
`k` below the retry limit) the state sits at `critic_planner` with retry
count `k` and a recorded rejection. -/
theorem alwaysReject_cp (q : String) (L : Nat) :
    ∀ k : Nat, k < L →
      (runAux (fun _ => rejectAllEnv) (mkInit q L) 0 (2 * k + 2)).current_step
        = "critic_planner" ∧
      (runAux (fun _ => rejectAllEnv) (mkInit q L) 0 (2 * k + 2)).retry_count = k ∧
      (runAux (fun _ => rejectAllEnv) (mkInit q L) 0 (2 * k + 2)).retry_limit = L ∧
      (runAux (fun _ => rejectAllEnv) (mkInit q L) 0 (2 * k + 2)).error = none ∧
      (runAux (fun _ => rejectAllEnv) (mkInit q L) 0 (2 * k + 2)).critic_planner_decision
        = "reject" := by
  intro k
  induction k with
  | zero =>
    intro hk
    have hL1 : (mkInit q L).retry_count < (mkInit q L).retry_limit := hk
    obtain ⟨g1, g2, g3, g4, g5, g6, g7, g8, g9, g10⟩ :=
      bigStep_input rejectAllEnv (mkInit q L) rfl rfl hL1
    obtain ⟨p1, p2, p3, p4, p5, p6, p7, p8, p9, p10⟩ :=
      bigStep_planner rejectAllEnv (bigStep rejectAllEnv (mkInit q L))
        (by rw [g4]; rfl) g1 (by rw [g2, g3]; exact hL1)
    have hsplit : runAux (fun _ => rejectAllEnv) (mkInit q L) 0 (2 * 0 + 2)
        = bigStep rejectAllEnv (bigStep rejectAllEnv (mkInit q L)) := by
      rw [(by norm_num : 2 * 0 + 2 = 2), runAux_two]
    rw [hsplit]
    exact ⟨p1, by rw [p2, g2]; rfl, by rw [p3, g3]; rfl, by rw [p4, g4]; rfl,
      p6.trans rfl⟩
  | succ k ih =>
    intro hk
    obtain ⟨q1, q2, q3, q4, q5⟩ := ih (by omega)
    obtain ⟨r1, r2, r3, r4, r5, r6, r7, r8, r9⟩ :=
      bigStep_cp_reject_cont rejectAllEnv
        (runAux (fun _ => rejectAllEnv) (mkInit q L) 0 (2 * k + 2))
        q4 q1 q5 (by rw [q2, q3]; omega)
    obtain ⟨p1, p2, p3, p4, p5, p6, p7, p8, p9, p10⟩ :=
      bigStep_planner rejectAllEnv
        (bigStep rejectAllEnv (runAux (fun _ => rejectAllEnv) (mkInit q L) 0 (2 * k + 2)))
        (by rw [r4]; exact q4) r1 (by rw [r2, r3, q2, q3]; omega)
    have hsplit : runAux (fun _ => rejectAllEnv) (mkInit q L) 0 (2 * (k + 1) + 2)
        = bigStep rejectAllEnv
            (bigStep rejectAllEnv
              (runAux (fun _ => rejectAllEnv) (mkInit q L) 0 (2 * k + 2))) := by
      rw [(by omega : 2 * (k + 1) + 2 = (2 * k + 2) + 2), runAux_add, runAux_two]
    rw [hsplit]
    exact ⟨p1, by rw [p2, r2, q2], by rw [p3, r3]; exact q3,
      by rw [p4, r4]; exact q4, p6.trans rfl⟩

/-- C1 (amended): the orchestration loop terminates, but with the source's
single shared retry counter and limit, and with coefficient 2: for every
initial retry limit `L`, every environment whose planner never returns more
than `N` research steps and whose critic always returns a verdict, the run
reaches `current_step = "finalizer"` within `2*L + 2*N + 5` controller
invocations.  Concretely, with the default limit 5 and an always-rejecting
critic, the controller invocation that exhausts the retry budget (the 11th)
pre-fills `final_answer = "The question could not be answered."` and routes
to the finalizer; the finalizer node then runs once before the graph ends
and unconditionally overwrites `final_answer` with the finalizer
collaborator's output, so the terminal answer is that output and the
sentinel is only the transient pre-filled value. -/
theorem C1_termination (N : Nat) (envs : Nat → LLMEnv) (q : String) (L : Nat)
    (hE : ∀ i, ValidEnv N (envs i)) :
    (runAux envs (mkInit q L) 0 (2 * L + 2 * N + 5)).current_step = "finalizer" ∧
    ((orchestrator (runAux (fun _ => rejectAllEnv) (mkInit "Q" 5) 0 10)).current_step
        = "finalizer" ∧
     (orchestrator (runAux (fun _ => rejectAllEnv) (mkInit "Q" 5) 0 10)).final_answer
        = "The question could not be answered." ∧
     (runAux (fun _ => rejectAllEnv) (mkInit "Q" 5) 0 15).current_step = "finalizer" ∧
     (runAux (fun _ => rejectAllEnv) (mkInit "Q" 5) 0 15).final_answer
        = rejectAllEnv.final_answer) :=
  ⟨run_reaches_finalizer N envs hE _ _ 0 (Inv_mkInit N q L)
    (le_of_eq (mu_mkInit N q L)),
   by decide, by decide, by decide, by decide⟩

/-- C1 counterexample: the bound as the claim states it — retry limits plus
research-step count plus a constant — holds for no constant: an
always-rejecting run with limit `c+2` and no research steps is still at
`critic_planner` after `(c+2) + 0 + c` controller invocations. -/
theorem C1_termination_cex : ¬ ∃ c : Nat, specClaimedBound c := by
  rintro ⟨c, hc⟩
  have hbound := hc "Q" (c + 2) 0 (fun _ => rejectAllEnv)
    (fun _ => ⟨Or.inr rfl, by exact Nat.le_refl 0⟩)
  have hstate := (alwaysReject_cp "Q" (c + 2) c (by omega)).1
  rw [(by omega : c + 2 + 0 + c = 2 * c + 2)] at hbound
  exact absurd (hstate.symm.trans hbound) (by decide)

/-- C1 witness: the amended bound at the concrete always-reject scenario. -/
theorem C1_termination_witness :
    (∀ i : Nat, ValidEnv 0 ((fun _ => rejectAllEnv) i)) ∧
    (runAux (fun _ => rejectAllEnv) (mkInit "Q" 5) 0 (2 * 5 + 2 * 0 + 5)).current_step
      = "finalizer" :=
  ⟨fun _ => ⟨Or.inr rfl, by exact Nat.le_refl 0⟩,
   (C1_termination 0 (fun _ => rejectAllEnv) "Q" 5 (fun _ => ⟨Or.inr rfl, by exact Nat.le_refl 0⟩)).1⟩

/-- C4 (amended): over invariant states, a controller invocation either
leaves the research cursor unchanged or increments it by exactly one — it
never decreases and never skips — and an increment happens only when
processing a `critic_researcher` approval with steps remaining, or on the
first entry into research, when processing the `critic_planner` approval of
a non-empty plan. -/
theorem C4_cursor_monotone (N : Nat) (s : GraphState) (hI : Inv N s) :
    (orchestrator s).current_research_index = s.current_research_index ∨
    ((orchestrator s).current_research_index = s.current_research_index + 1 ∧
      ((s.current_step = "critic_researcher" ∧ s.critic_researcher_decision = "approve") ∨
       (s.current_step = "critic_planner" ∧ s.critic_planner_decision = "approve" ∧
         s.research_steps ≠ []))) := by
  obtain ⟨he, hlen, hsteps, hin, hretry, hppc, hcpd, hres, hcrd, hced, hfin⟩ := hI
  rcases hsteps with hc | hc | hc | hc | hc | hc | hc | hc
  · by_cases hL : s.retry_count < s.retry_limit
    · obtain ⟨m, horch, -, -⟩ := orch_input s he hc hL
      left; rw [horch]; simp [send_message]
    · left; exact (orch_input_limit s he hc (by omega)).2
  · have hL : s.retry_count < s.retry_limit := hretry (by simp [hc]) (by simp [hc])
    obtain ⟨m, horch, -, -⟩ := orch_planner s he hc hL
    left; rw [horch]; simp [send_message]
  · have hL : s.retry_count < s.retry_limit := hretry (by simp [hc]) (by simp [hc])
    obtain ⟨h0, hlt, hreslen⟩ := hres (Or.inl hc)
    obtain ⟨m, horch, -, -, -⟩ := orch_researcher s he hc h0 hreslen hL
    left; rw [horch]; simp [send_message]
  · have hL : s.retry_count < s.retry_limit := hretry (by simp [hc]) (by simp [hc])
    obtain ⟨m, horch, -, -⟩ := orch_expert s he hc hL
    left; rw [horch]; simp [send_message]
  · have hL : s.retry_count < s.retry_limit := hretry (by simp [hc]) (by simp [hc])
    obtain ⟨hidx, hcrd0⟩ := hppc (Or.inr (Or.inr hc))
    rcases hcpd hc with ha | hr
    · by_cases hplan : 0 < s.research_steps.length
      · obtain ⟨m, horch, -, -, -⟩ := orch_cp_approve_res s he hc ha hplan
          (by simp [hcrd0]) hL
        right
        constructor
        · rw [horch, hidx]; simp [send_message]
        · exact Or.inr ⟨hc, ha, List.length_pos.mp hplan⟩
      · obtain ⟨m, horch, -, -⟩ := orch_cp_approve_exp s he hc ha (by omega) hL
        left; rw [horch]; simp [send_message]
    · by_cases hL2 : s.retry_count + 1 < s.retry_limit
      · obtain ⟨m, horch, -, -⟩ := orch_cp_reject_cont s he hc hr hL2
        left; rw [horch]; simp [send_message]
      · left; exact (orch_cp_reject_limit s he hc hr (by omega)).2
  · have hL : s.retry_count < s.retry_limit := hretry (by simp [hc]) (by simp [hc])
    obtain ⟨h0, hlt, hreslen⟩ := hres (Or.inr hc)
    rcases hcrd hc with ha | hr
    · by_cases hdone : (s.research_steps.length : Int) - 1 ≤ s.current_research_index
      · obtain ⟨m, horch, -, -⟩ := orch_cr_approve_done s he hc ha hdone hL
        left; rw [horch]; simp [send_message]
      · obtain ⟨m, horch, -, -, -⟩ := orch_cr_approve_cont s he hc ha h0 (by omega) hL
        right
        exact ⟨by rw [horch]; simp [send_message], Or.inl ⟨hc, ha⟩⟩
    · by_cases hL2 : s.retry_count + 1 < s.retry_limit
      · obtain ⟨m, horch, -, -, -⟩ := orch_cr_reject_cont s he hc hr hL2
        left; rw [horch]; simp [send_message]
      · left; exact (orch_cr_reject_limit s he hc hr (by omega)).2
  · have hL : s.retry_count < s.retry_limit := hretry (by simp [hc]) (by simp [hc])
    rcases hced hc with ha | hr
    · obtain ⟨m, horch⟩ := orch_ce_approve s he hc ha hL
      left; rw [horch]; simp [send_message]
    · by_cases hL2 : s.retry_count + 1 < s.retry_limit
      · obtain ⟨m, horch, -, -⟩ := orch_ce_reject_cont s he hc hr hL2
        left; rw [horch]; simp [send_message]
      · left; exact (orch_ce_reject_limit s he hc hr (by omega)).2
  · left; exact (orch_at_finalizer s he hc (hfin hc)).2

/-- C4 counterexample: on the reachable state in which the critic has just
approved a one-step research plan (`current_step = "critic_planner"`), the
orchestrator advances the cursor from `-1` to `0` — an increase that does
not happen on a `critic_researcher` approval, contradicting the claim as
stated. -/
theorem C4_cursor_monotone_cex : ¬ cursorClaimC4 c4State := by
  intro h
  have hne : (orchestrator c4State).current_research_index
      ≠ c4State.current_research_index := by decide
  exact absurd (h hne).1 (by decide)

/-- C4 witness: the amended cursor property at the concrete initial
state. -/
theorem C4_cursor_monotone_witness :
    Inv 0 (mkInit "q" 5) ∧
    ((orchestrator (mkInit "q" 5)).current_research_index
        = (mkInit "q" 5).current_research_index ∨
     ((orchestrator (mkInit "q" 5)).current_research_index
        = (mkInit "q" 5).current_research_index + 1 ∧
      (((mkInit "q" 5).current_step = "critic_researcher" ∧
          (mkInit "q" 5).critic_researcher_decision = "approve") ∨
       ((mkInit "q" 5).current_step = "critic_planner" ∧
          (mkInit "q" 5).critic_planner_decision = "approve" ∧
          (mkInit "q" 5).research_steps ≠ [])))) :=
  ⟨Inv_mkInit 0 "q" 5, C4_cursor_monotone 0 (mkInit "q" 5) (Inv_mkInit 0 "q" 5)⟩

end MultiAgent
